import Mathlib

/-!
Verification of the virtual-DOM reconciler and reactive dependency-tracking
core of a Vue 2 runtime, as a shallow embedding in Lean.

The embedding follows the JavaScript source files:
  * `src/core/vdom/patch.js`      — `sameVnode`, `sameInputType`,
    `createKeyToOldIdx`, `checkDuplicateKeys`, `findIdxInOld`,
    `updateChildren`, `removeVnodes`, `removeAndInvokeRemoveHook`,
    `createRmCb`, `invokeDestroyHook`, and the `patch` entry point.
  * `src/core/observer/watcher.js` — the `Watcher` class.
  * `src/core/instance/state.js`   — `createComputedGetter`.
  * the `renderSlot` render helper.

JavaScript values are modelled with `Option` for possibly-`undefined`
fields.  Keys and attribute values are drawn from `String` (JS also allows
numbers; under strict equality a number is never equal to a string, and as
object-property names numbers are coerced to strings, so nothing in the
verified claims depends on the distinction).  Render-target (DOM) nodes are
identified by natural numbers.
-/

namespace Vue

/-- The `attrs` payload of a vnode's `data` (only the `type` attribute is
relevant to the reconciler's identity rule). -/
structure AttrsData where
  type : Option String
deriving DecidableEq, Repr

/-- The slice of a vnode's `data` payload read by the embedded functions:
`attrs` (for `sameInputType`), the `slot` entry (for `renderSlot`), and the
presence of `data.hook.destroy` / `data.hook.remove` vnode hooks. -/
structure VNodeData where
  attrs : Option AttrsData
  slot : Option String
  hookDestroy : Bool
  hookRemove : Bool
deriving DecidableEq, Repr

/-- An async-component factory.  Reference identity (`===`) is modelled by
the numeric id `fid`; `hasError` records whether its `error` field is
defined. -/
structure AsyncFactory where
  fid : Nat
  hasError : Bool
deriving DecidableEq, Repr

/-- A virtual-DOM node.  `children` holds the child list (`[]` both for an
absent and for an empty list: the embedded functions treat the two alike),
`elm` is the materialized render-target node, and `compVnode` is
`componentInstance._vnode`, the rendered root vnode of the component
instance a placeholder node is linked to (`none` for plain nodes). -/
inductive VNode where
  | mk (tag : Option String) (key : Option String) (isComment : Bool)
       (data : Option VNodeData) (children : List VNode)
       (text : Option String) (elm : Option Nat)
       (isAsyncPlaceholder : Bool) (asyncFactory : Option AsyncFactory)
       (compVnode : Option VNode)

def VNode.tag : VNode → Option String
  | .mk t _ _ _ _ _ _ _ _ _ => t

def VNode.key : VNode → Option String
  | .mk _ k _ _ _ _ _ _ _ _ => k

def VNode.isComment : VNode → Bool
  | .mk _ _ c _ _ _ _ _ _ _ => c

def VNode.data : VNode → Option VNodeData
  | .mk _ _ _ d _ _ _ _ _ _ => d

def VNode.children : VNode → List VNode
  | .mk _ _ _ _ ch _ _ _ _ _ => ch

def VNode.text : VNode → Option String
  | .mk _ _ _ _ _ tx _ _ _ _ => tx

def VNode.elm : VNode → Option Nat
  | .mk _ _ _ _ _ _ e _ _ _ => e

def VNode.isAsyncPlaceholder : VNode → Bool
  | .mk _ _ _ _ _ _ _ ap _ _ => ap

def VNode.asyncFactory : VNode → Option AsyncFactory
  | .mk _ _ _ _ _ _ _ _ af _ => af

def VNode.compVnode : VNode → Option VNode
  | .mk _ _ _ _ _ _ _ _ _ cv => cv

/-- Replace the `elm` field (models `vnode.elm = ...` assignments). -/
def VNode.withElm : VNode → Option Nat → VNode
  | .mk t k c d ch tx _ ap af cv, e => .mk t k c d ch tx e ap af cv

/-- The value of the guarded chain
`isDef(i = a.data) && isDef(i = i.attrs) && i.type` in `sameInputType`
(patch.js:59-60).  In JS the chain evaluates to the boolean `false` when
`data` or `attrs` is undefined (the `&&` stops at a failed `isDef`), and to
the — possibly undefined — `type` attribute otherwise.  `false` and
`undefined` are distinct values under strict equality, so the three cases
must be kept apart. -/
inductive TypeChain where
  | fls
  | undef
  | str (s : String)
deriving DecidableEq, Repr

def typeChain (a : VNode) : TypeChain :=
  match a.data with
  | none => .fls
  | some d =>
    match d.attrs with
    | none => .fls
    | some at_ =>
      match at_.type with
      | none => .undef
      | some s => .str s

/-- `isTextInputType` (web/util/element): membership in
`makeMap('text,number,password,search,email,tel,url')`; any non-string
argument (`false`, `undefined`) is not in the map. -/
def isTextInputType : TypeChain → Bool
  | .str s => ["text", "number", "password", "search", "email", "tel", "url"].contains s
  | _ => false

/-- `sameInputType` (patch.js:56-62). -/
def sameInputType (a b : VNode) : Bool :=
  if a.tag ≠ some "input" then true
  else
    typeChain a == typeChain b ||
      (isTextInputType (typeChain a) && isTextInputType (typeChain b))

/-- `isUndef(b.asyncFactory.error)` (patch.js:50).  The source dereferences
`b.asyncFactory` unguarded; it is reached only under
`a.asyncFactory === b.asyncFactory` with `a.isAsyncPlaceholder` true, and an
async placeholder always carries a factory, so the `none` case (where the
source would throw) is mapped to `false`. -/
def asyncErrorUndef (b : VNode) : Bool :=
  match b.asyncFactory with
  | none => false
  | some f => !f.hasError

/-- `sameVnode` (patch.js:39-54). -/
def sameVnode (a b : VNode) : Bool :=
  a.key == b.key &&
    ((a.tag == b.tag &&
      a.isComment == b.isComment &&
      a.data.isSome == b.data.isSome &&
      sameInputType a b) ||
     (a.isAsyncPlaceholder &&
      a.asyncFactory == b.asyncFactory &&
      asyncErrorUndef b))

/-- The `data.attrs.type` attribute of a vnode read as a plain optional
value, as the claim's words "the data.attrs.type values" describe it: a
missing `data`, a missing `attrs` and a missing `type` all yield the same
absent value. -/
def typeAttr (a : VNode) : Option String :=
  (a.data.bind (·.attrs)).bind (·.type)

def isTextInputTypeOpt : Option String → Bool
  | some s => ["text", "number", "password", "search", "email", "tel", "url"].contains s
  | none => false

/-- The identity predicate exactly as claim C1 words it ("the data.attrs.type
values are equal or both are text-like input types"), for comparison with
the source's `sameVnode`. -/
def sameVnodeClaim (a b : VNode) : Bool :=
  a.key == b.key &&
    ((a.tag == b.tag &&
      a.isComment == b.isComment &&
      a.data.isSome == b.data.isSome &&
      (a.tag != some "input" ||
        typeAttr a == typeAttr b ||
        (isTextInputTypeOpt (typeAttr a) && isTextInputTypeOpt (typeAttr b)))) ||
     (a.isAsyncPlaceholder &&
      a.asyncFactory == b.asyncFactory &&
      asyncErrorUndef b))

/-! ### Key bookkeeping: `createKeyToOldIdx`, `checkDuplicateKeys`, `findIdxInOld` -/

/-- The key-to-index map built by `createKeyToOldIdx`: a plain JS object.
Assignment `map[key] = i` overwrites, which we model by prepending and
looking up the first (most recent) binding. -/
def mapInsert (m : List (String × Int)) (k : String) (i : Int) :
    List (String × Int) :=
  (k, i) :: m

def mapLookup (m : List (String × Int)) (k : String) : Option Int :=
  match m with
  | [] => none
  | (k', v) :: rest => if k' = k then some v else mapLookup rest k

/-- Indexing with a (possibly negative) JS integer into the old-children
array, whose consumed slots are `none`: out-of-range and consumed slots both
read as `undefined`. -/
def oldAt (oldCh : List (Option VNode)) (i : Int) : Option VNode :=
  if 0 ≤ i then (oldCh[i.toNat]?).join else none

def newAt (newCh : List VNode) (i : Int) : Option VNode :=
  if 0 ≤ i then newCh[i.toNat]? else none

/-- The loop of `createKeyToOldIdx`, counting the `n` indices
`beginIdx, beginIdx+1, ..., beginIdx+n-1` already processed; index
`beginIdx+n-1` is assigned last and therefore shadows earlier bindings of
the same key. -/
def ktoiAux (children : List (Option VNode)) (beginIdx : Int) : Nat → List (String × Int)
  | 0 => []
  | n + 1 =>
    let m := ktoiAux children beginIdx n
    let i := beginIdx + n
    match oldAt children i with
    | some c =>
      match c.key with
      | some k => mapInsert m k i
      | none => m
    | none => m

/-- `createKeyToOldIdx` (patch.js:65-73): for `i` from `beginIdx` to
`endIdx`, if `children[i].key` is defined, `map[key] = i` (overwriting).
The source dereferences `children[i]` unguarded; at its single (lazy) call
site no slot in range has been consumed yet, so a `none` slot — where the
source would throw — is skipped. -/
def createKeyToOldIdx (children : List (Option VNode)) (beginIdx endIdx : Int) :
    List (String × Int) :=
  ktoiAux children beginIdx (endIdx + 1 - beginIdx).toNat

/-- The loop of `checkDuplicateKeys` with its `seenKeys` accumulator: a
child whose defined key was already seen emits one warning (and `seenKeys`
is left as is); otherwise the key is recorded. -/
def checkDup (seen : List String) : List VNode → List String
  | [] => []
  | v :: vs =>
    match v.key with
    | some k =>
      if seen.contains k then k :: checkDup seen vs
      else checkDup (seen ++ [k]) vs
    | none => checkDup seen vs

/-- `checkDuplicateKeys` (patch.js:549-565): walk the children recording
seen keys; each child whose defined key was already seen produces one
warning.  The returned list holds the warned keys in emission order; the
function has no other effect. -/
def checkDuplicateKeys (children : List VNode) : List String :=
  checkDup [] children

/-- `findIdxInOld` (patch.js:567-572): linear scan for a `sameVnode` match
among the old children, from `start` up to but NOT including `end`. -/
def findIdxInOld (node : VNode) (oldCh : List (Option VNode)) (start stop : Int) :
    Option Int :=
  (List.range (stop - start).toNat).findSome?
    (fun j =>
      let i := start + j
      match oldAt oldCh i with
      | some c => if sameVnode node c then some i else none
      | none => none)

/-! ### Removal: destroy hooks, remove hooks and the shared countdown

The side-effect modules registered with the patch function are abstracted by
their hook counts: `nRemove` modules with a `remove` hook and `nDestroy`
modules with a `destroy` hook (`cbs.remove.length` / `cbs.destroy.length`).
Hook invocations and render-target mutations are recorded as events. -/

structure Cbs where
  nRemove : Nat
  nDestroy : Nat
deriving DecidableEq, Repr

inductive Evt where
  /-- `vnode.data.hook.destroy(vnode)` was invoked. -/
  | destroyHookEvt (elm : Option Nat)
  /-- one `cbs.destroy` module hook was invoked on the vnode. -/
  | destroyModuleEvt (elm : Option Nat)
  /-- one `cbs.remove` module hook was invoked (receiving the shared `rm`). -/
  | removeModuleEvt (elm : Option Nat)
  /-- `vnode.data.hook.remove(vnode, rm)` was invoked. -/
  | removeHookEvt (elm : Option Nat)
  /-- `removeNode`: the render-target node was physically detached. -/
  | detach (elm : Option Nat)
deriving DecidableEq, Repr

def isDestroyEvt : Evt → Bool
  | .destroyHookEvt _ => true
  | .destroyModuleEvt _ => true
  | _ => false

/-- `invokeDestroyHook` (patch.js:398-410): fire the vnode's own destroy
hook and the module destroy hooks when `data` is defined, then recurse into
the children (parent first, i.e. top-down). -/
def invokeDestroyHook (cbs : Cbs) : VNode → List Evt
  | .mk _ _ _ data ch _ elm _ _ _ =>
    (match data with
     | some d =>
       (if d.hookDestroy then [Evt.destroyHookEvt elm] else []) ++
         List.replicate cbs.nDestroy (Evt.destroyModuleEvt elm)
     | none => []) ++
    destroyChildren cbs ch
where
  destroyChildren (cbs : Cbs) : List VNode → List Evt
    | [] => []
    | v :: vs => invokeDestroyHook cbs v ++ destroyChildren cbs vs

/-- The state of the shared `remove` callback produced by `createRmCb`
(patch.js:97-105): the captured `childElm` and the current `listeners`
count.  All nested `removeAndInvokeRemoveHook` levels mutate this one
closure. -/
structure RmSt where
  cnt : Nat
  elm : Option Nat
deriving DecidableEq, Repr

/-- One invocation of the `remove` closure: `--remove.listeners`, and when
the count reaches `0`, `removeNode(childElm)`.  (A call on an already-zero
counter would drive the JS count negative and never detach; it cannot occur
— calls never exceed registrations.) -/
def rmCb (st : RmSt) : RmSt × List Evt :=
  if st.cnt = 1 then ({ st with cnt := 0 }, [Evt.detach st.elm])
  else ({ st with cnt := st.cnt - 1 }, [])

/-- Call the shared `rm` closure `k` times (the asynchronous remove
listeners calling back). -/
def fireN (st : RmSt) : Nat → RmSt × List Evt
  | 0 => (st, [])
  | k + 1 =>
    let (st1, t1) := rmCb st
    let (st2, t2) := fireN st1 k
    (st2, t1 ++ t2)

/-- The tail of `removeAndInvokeRemoveHook` after the recursive
component-chain walk: invoke the module `remove` hooks, then the vnode's
own `remove` hook — or, if it has none, call `rm()` once immediately. -/
def raiFinish (cbs : Cbs) (elm : Option Nat) (hookRemove : Bool)
    (rm2 : RmSt) (tr1 : List Evt) : Option RmSt × List Evt :=
  let tr2 := List.replicate cbs.nRemove (Evt.removeModuleEvt elm)
  if hookRemove then (some rm2, tr1 ++ tr2 ++ [Evt.removeHookEvt elm])
  else
    let p := rmCb rm2
    (some p.1, tr1 ++ tr2 ++ p.2)

/-- `removeAndInvokeRemoveHook` (patch.js:429-456).  When a shared `rm` is
passed down or the vnode has `data`: add `cbs.remove.length + 1` listeners
to the shared countdown (creating it at the top with `createRmCb`), recurse
into the component-instance root vnode chain first, then run `raiFinish`.
Otherwise detach directly.  Returns the shared countdown's state (if one
exists) and the emitted events.  (`vnode.data.hook` is dereferenced by the
source without a guard; `data` is always defined when that point is
reached, and the `none` fallback reads as no remove hook.) -/
def raiRemoveHook (cbs : Cbs) : VNode → Option RmSt → Option RmSt × List Evt
  | .mk _ _ _ data _ _ elm _ _ cv, rm =>
    if rm.isSome || data.isSome then
      let rm1 : RmSt :=
        match rm with
        | some r => { r with cnt := r.cnt + (cbs.nRemove + 1) }
        | none => { cnt := cbs.nRemove + 1, elm := elm }
      -- recursively invoke hooks on child component root node
      let inner : RmSt × List Evt :=
        match cv with
        | some innerV =>
          if innerV.data.isSome then
            match raiRemoveHook cbs innerV (some rm1) with
            | (some r, t) => (r, t)
            | (none, t) => (rm1, t)
          else (rm1, [])
        | none => (rm1, [])
      raiFinish cbs elm
        (match data with
         | some d => d.hookRemove
         | none => false)
        inner.1 inner.2
    else
      (none, [Evt.detach elm])

/-- `removeVnodes` (patch.js:413-427): for each defined slot in
`[startIdx, endIdx]`, a tagged vnode gets `removeAndInvokeRemoveHook` THEN
`invokeDestroyHook`; a text node is detached directly. -/
def removeVnodes (cbs : Cbs) (vnodes : List (Option VNode)) (startIdx endIdx : Int) :
    List Evt :=
  (List.range (endIdx + 1 - startIdx).toNat).flatMap
    (fun j =>
      match oldAt vnodes (startIdx + j) with
      | some ch =>
        if ch.tag.isSome then
          (raiRemoveHook cbs ch none).2 ++ invokeDestroyHook cbs ch
        else
          [Evt.detach ch.elm]
      | none => [])

/-- The `isUndef(vnode)` arm of the `patch` entry point (patch.js:795-799):
when the new vnode is undefined, a defined old vnode receives the recursive
destroy hooks and the function returns `undefined`; no render-target node is
touched.  The rest of `patch` is not reachable under this guard. -/
def patchWhenVnodeUndef (cbs : Cbs) (oldVnode : Option VNode) :
    List Evt × Option Nat :=
  match oldVnode with
  | some o => (invokeDestroyHook cbs o, none)
  | none => ([], none)

/-! ### The list-diff algorithm (`updateChildren`)

The loop is modelled at the level at which it manipulates the child lists.
`patchVnode` on two same-identity nodes is recorded as a `patchOp`; its one
effect visible to the loop — `vnode.elm = oldVnode.elm` (patch.js:593),
written through the live vnode object held in `newCh` — is performed on the
`newCh` slot.  (`patchVnode` clones the new vnode only when its `elm` is
already defined, which is not the case for the children of a fresh render.)
`createElm` is recorded as a `createOp` allocating a fresh render-target
node for the slot.  Moves record the `nodeOps.insertBefore` calls. -/

inductive DiffOp where
  /-- `patchVnode(old, newCh[newIdx], ...)`. -/
  | patchOp (oldElm : Option Nat) (newIdx : Int)
  /-- `createElm(newCh[newIdx], ..., refElm, false, newCh, newIdx)` with the
  freshly created render-target node. -/
  | createOp (newIdx : Int) (newElm : Nat) (refElm : Option Nat)
  /-- `insertBefore(parentElm, elm, refElm)`. -/
  | moveBefore (elm : Option Nat) (refElm : Option Nat)
  /-- `insertBefore(parentElm, elm, nextSibling(afterElm))`. -/
  | moveAfter (elm : Option Nat) (afterElm : Option Nat)
  /-- the post-loop `removeVnodes(parentElm, oldCh, oldStartIdx, oldEndIdx)`
  with the removal events it emits synchronously. -/
  | removeOp (evts : List Evt)
deriving DecidableEq, Repr

/-- The local state of `updateChildren` (patch.js:459-547): the slot arrays,
the four cursors, the four cached cursor vnodes, the lazily built key map,
plus the recorded operations and a counter for fresh render-target nodes.
The development-mode duplicate-key warnings are a pure side channel
(`warn` prints and nothing more), so they are returned next to the state
by `updateChildren` rather than stored in it.  `crashed` models the
TypeError the source throws at patch.js:519 when a stale key-map entry
points at a consumed (`undefined`) old slot — `sameVnode(undefined, ...)`
reads `a.key` on `undefined`; once set, the loop and the post-loop fixup
are cut short, as the propagating exception cuts them short in the
source. -/
structure DiffState where
  oldCh : List (Option VNode)
  newCh : List VNode
  oldStartIdx : Int
  oldEndIdx : Int
  newStartIdx : Int
  newEndIdx : Int
  oldStartVnode : Option VNode
  oldEndVnode : Option VNode
  newStartVnode : Option VNode
  newEndVnode : Option VNode
  oldKeyToIdx : Option (List (String × Int))
  ops : List DiffOp
  nextElm : Nat
  crashed : Bool

/-- Initialisation of the loop state (patch.js:460-467, 475-477).  `removeOnly`
is passed by the caller; `canMove = !removeOnly` is a parameter of the step
function.  Fresh render-target ids start above every id in use. -/
def initDiffState (oldCh newCh : List VNode) (freshElm : Nat) : DiffState :=
  { oldCh := oldCh.map some
    newCh := newCh
    oldStartIdx := 0
    oldEndIdx := oldCh.length - 1
    newStartIdx := 0
    newEndIdx := newCh.length - 1
    oldStartVnode := oldAt (oldCh.map some) 0
    oldEndVnode := oldAt (oldCh.map some) (oldCh.length - 1)
    newStartVnode := newAt newCh 0
    newEndVnode := newAt newCh (newCh.length - 1)
    oldKeyToIdx := none
    ops := []
    nextElm := freshElm
    crashed := false }

/-- `patchVnode(oldV, newCh[newIdx], insertedVnodeQueue, newCh, newIdx)` as
seen by the loop: record the op and write `newCh[newIdx].elm = oldV.elm`. -/
def patchInto (st : DiffState) (oldV : VNode) (newIdx : Int) : DiffState :=
  match newAt st.newCh newIdx with
  | none => st
  | some nv =>
    { st with
      newCh := st.newCh.set newIdx.toNat (nv.withElm oldV.elm)
      ops := st.ops ++ [.patchOp oldV.elm newIdx] }

/-- `createElm(newCh[newIdx], insertedVnodeQueue, parentElm, refElm, false,
newCh, newIdx)` as seen by the loop: record the op, allocate a fresh
render-target node and store it in the slot's `elm`. -/
def createInto (st : DiffState) (newIdx : Int) (refElm : Option Nat) : DiffState :=
  match newAt st.newCh newIdx with
  | none => st
  | some nv =>
    { st with
      newCh := st.newCh.set newIdx.toNat (nv.withElm (some st.nextElm))
      nextElm := st.nextElm + 1
      ops := st.ops ++ [.createOp newIdx st.nextElm refElm] }

/-- `oldStartVnode = oldCh[++oldStartIdx]` and friends. -/
def advOldStart (st : DiffState) : DiffState :=
  { st with oldStartIdx := st.oldStartIdx + 1
            oldStartVnode := oldAt st.oldCh (st.oldStartIdx + 1) }

def retOldEnd (st : DiffState) : DiffState :=
  { st with oldEndIdx := st.oldEndIdx - 1
            oldEndVnode := oldAt st.oldCh (st.oldEndIdx - 1) }

def advNewStart (st : DiffState) : DiffState :=
  { st with newStartIdx := st.newStartIdx + 1
            newStartVnode := newAt st.newCh (st.newStartIdx + 1) }

def retNewEnd (st : DiffState) : DiffState :=
  { st with newEndIdx := st.newEndIdx - 1
            newEndVnode := newAt st.newCh (st.newEndIdx - 1) }

/-- Ensure the lazily built key map exists (patch.js:508). -/
def ensureKeyMap (st : DiffState) : DiffState :=
  match st.oldKeyToIdx with
  | some _ => st
  | none =>
    let m := createKeyToOldIdx st.oldCh st.oldStartIdx st.oldEndIdx
    { st with oldKeyToIdx := some m }

/-- `idxInOld` (patch.js:510-513): a keyed new-start is looked up in the
map; a keyless one is searched for by identity with `findIdxInOld`. -/
def idxInOldOf (st : DiffState) (nsv : VNode) : Option Int :=
  match nsv.key with
  | some k => mapLookup (st.oldKeyToIdx.getD []) k
  | none => findIdxInOld nsv st.oldCh st.oldStartIdx st.oldEndIdx

/-- The no-positional-match arm of the loop (patch.js:506-533), entered when
all four cursor comparisons have failed.  `osv` is the cached
`oldStartVnode`, `nsv` the cached `newStartVnode`. -/
def diffKeyedStep (canMove : Bool) (st : DiffState) (osv nsv : VNode) : DiffState :=
  let st := ensureKeyMap st
  match idxInOldOf st nsv with
  | none =>
    -- New element: `createElm(newStartVnode, ..., oldStartVnode.elm, ...)`
    advNewStart (createInto st st.newStartIdx osv.elm)
  | some i =>
    match oldAt st.oldCh i with
    | some vnodeToMove =>
      if sameVnode vnodeToMove nsv then
        let st := patchInto st vnodeToMove st.newStartIdx
        let st := { st with oldCh := st.oldCh.set i.toNat none }
        let st :=
          if canMove then { st with ops := st.ops ++ [.moveBefore vnodeToMove.elm osv.elm] }
          else st
        advNewStart st
      else
        -- same key but different element. treat as new element
        advNewStart (createInto st st.newStartIdx osv.elm)
    | none =>
      -- A consumed slot still present in the stale key map — reachable
      -- only with duplicate keys in the new children: the source throws a
      -- TypeError inside `sameVnode(undefined, ...)` (patch.js:519),
      -- before any mutation and before `++newStartIdx`.
      { st with crashed := true }

/-- One iteration of the `while` body of `updateChildren` (patch.js:479-534),
under the loop guard.  The branches are tried in the source's order. -/
def diffStep (canMove : Bool) (st : DiffState) : DiffState :=
  match st.oldStartVnode with
  | none => advOldStart st          -- Vnode has been moved left
  | some osv =>
    match st.oldEndVnode with
    | none => retOldEnd st
    | some oev =>
      -- the cached new-cursor vnodes are defined whenever the loop guard
      -- holds; the `none` fallbacks are unreachable
      match st.newStartVnode with
      | none => st
      | some nsv =>
        match st.newEndVnode with
        | none => st
        | some nev =>
          if sameVnode osv nsv then
            advOldStart (advNewStart (patchInto st osv st.newStartIdx))
          else if sameVnode oev nev then
            retOldEnd (retNewEnd (patchInto st oev st.newEndIdx))
          else if sameVnode osv nev then
            -- Vnode moved right
            let st := patchInto st osv st.newEndIdx
            let st :=
              if canMove then { st with ops := st.ops ++ [.moveAfter osv.elm oev.elm] }
              else st
            advOldStart (retNewEnd st)
          else if sameVnode oev nsv then
            -- Vnode moved left
            let st := patchInto st oev st.newStartIdx
            let st :=
              if canMove then { st with ops := st.ops ++ [.moveBefore oev.elm osv.elm] }
              else st
            retOldEnd (advNewStart st)
          else
            diffKeyedStep canMove st osv nsv

/-- The loop guard `oldStartIdx <= oldEndIdx && newStartIdx <= newEndIdx`. -/
def diffGuard (st : DiffState) : Bool :=
  st.oldStartIdx ≤ st.oldEndIdx && st.newStartIdx ≤ st.newEndIdx

/-- The `while` loop.  Every iteration strictly decreases
`(oldEndIdx - oldStartIdx) + (newEndIdx - newStartIdx)`, so the fuel
supplied by `updateChildren` is never exhausted. -/
def diffLoop (canMove : Bool) : Nat → DiffState → DiffState
  | 0, st => st
  | fuel + 1, st =>
    if st.crashed then st
    else if diffGuard st then diffLoop canMove fuel (diffStep canMove st) else st

/-- The post-loop fixup (patch.js:538-546): mount the remaining new nodes
before the node after `newEndIdx` (or at the end), or remove the remaining
old nodes. -/
def diffFinish (cbs : Cbs) (st : DiffState) : DiffState :=
  -- a TypeError thrown inside the loop propagates: no post-loop fixup
  if st.crashed then st
  else if st.oldStartIdx > st.oldEndIdx then
    -- refElm = isUndef(newCh[newEndIdx+1]) ? null : newCh[newEndIdx+1].elm
    let refElm :=
      match newAt st.newCh (st.newEndIdx + 1) with
      | none => none
      | some v => v.elm
    -- addVnodes: createElm for each of newCh[newStartIdx..newEndIdx]
    (List.range (st.newEndIdx + 1 - st.newStartIdx).toNat).foldl
      (fun st' j => createInto st' (st.newStartIdx + j) refElm) st
  else if st.newStartIdx > st.newEndIdx then
    { st with ops := st.ops ++
        [.removeOp (removeVnodes cbs st.oldCh st.oldStartIdx st.oldEndIdx)] }
  else st

/-- `updateChildren` (patch.js:459-547): the resulting state together with
the duplicate-key warnings emitted on entry (dev mode). -/
def updateChildren (cbs : Cbs) (oldCh newCh : List VNode) (removeOnly : Bool)
    (freshElm : Nat) : DiffState × List String :=
  let st := initDiffState oldCh newCh freshElm
  (diffFinish cbs (diffLoop (!removeOnly) (oldCh.length + newCh.length + 1) st),
   checkDuplicateKeys newCh)

/-! ### The `renderSlot` render helper

JS objects holding slot props are modelled as association lists of
assignments in chronological order; a later assignment overrides an earlier
one, so lookup returns the last binding.  Prop values are drawn from
`String`; the empty string is the falsy string. -/

/-- Last-binding lookup on an assignment list (JS object read). -/
def propsGet (o : List (String × String)) (k : String) : Option String :=
  (o.reverse.find? (fun p => p.1 = k)).map (·.2)

/-- `extend(to, src)` (shared/util): copy every key of `src` onto the target.
With assignment lists this appends, and lookup-last gives `src`
precedence. -/
def extendObj (dst src : List (String × String)) : List (String × String) :=
  dst ++ src

/-- The pieces of the component instance read by `renderSlot`:
`this.$scopedSlots` (name → render function, returning `none` for a falsy
result) and `this.$slots` (name → vnode array). -/
structure SlotCtx where
  scopedSlots : List (String × (List (String × String) → Option (List VNode)))
  slots : List (String × List VNode)

/-- The result of `renderSlot`: either the resolved vnode array (possibly
absent) or a single wrapping `template` vnode. -/
inductive RenderSlotResult where
  | nodes (ns : Option (List VNode))
  | wrapped (v : VNode)

/-- `this.$createElement('template', { slot: target }, nodes)`: a single
`template` vnode whose data carries the slot target (an undefined `nodes`
yields no children). -/
def templateVNode (target : String) (nodes : Option (List VNode)) : VNode :=
  .mk (some "template") none false
    (some { attrs := none, slot := some target, hookDestroy := false, hookRemove := false })
    (nodes.getD []) none none false none none

/-- The tail of `renderSlot`: `const target = props && props.slot;
if (target) return createElement('template', {slot: target}, nodes)
else return nodes`. -/
def finishSlot (props : Option (List (String × String)))
    (nodes : Option (List VNode)) : RenderSlotResult :=
  match props with
  | none => .nodes nodes
  | some p =>
    match propsGet p "slot" with
    | some target =>
      if target ≠ "" then .wrapped (templateVNode target nodes)
      else .nodes nodes
    | none => .nodes nodes

/-- `renderSlot(name, fallback, props, bindObject)` (render helper). -/
def renderSlot (ctx : SlotCtx) (name : String)
    (fallback : Option (List VNode))
    (props : Option (List (String × String)))
    (bindObject : Option (List (String × String))) : RenderSlotResult :=
  match (ctx.scopedSlots.find? (fun p => p.1 = name)).map (·.2) with
  | some scopedSlotFn =>
    -- scoped slot
    let props1 := props.getD []
    let props2 :=
      match bindObject with
      | some b => extendObj (extendObj [] b) props1
      | none => props1
    let nodes :=
      match scopedSlotFn props2 with
      | some ns => some ns
      | none => fallback
    finishSlot (some props2) nodes
  | none =>
    let nodes :=
      match (ctx.slots.find? (fun p => p.1 = name)).map (·.2) with
      | some ns => some ns
      | none => fallback
    finishSlot props nodes

/-! ### The reactive dependency-tracking system

`Watcher` (observer/watcher.js) is embedded over a small system state.
Dep ids coincide with reactive-field ids; a Dep is its subscriber list in
`Sys.subs`.  The `Dep` class itself, the reactive getter/setter installed
by `defineReactive` and the scheduler's `queueWatcher` live in source files
outside `src/` (dep.js, observer/index.js, scheduler.js); those three
pieces are modelled from the spec and marked as such below.  Watcher
evaluation functions are drawn from a tiny expression language `GExpr`
whose reads are exactly the tracked operations. -/

/-- A JS value as seen by watchers: `undefined`, a primitive, or an object
reference (identity by `oid`; `isObject` is true exactly for these). -/
inductive Val where
  | undef
  | prim (n : Int)
  | obj (oid : Nat)
deriving DecidableEq, Repr

def isObjectV : Val → Bool
  | .obj _ => true
  | _ => false

def truthy : Val → Bool
  | .undef => false
  | .prim n => n ≠ 0
  | .obj _ => true

/-- A watcher's evaluation function: field reads, computed reads (through
the generated computed getter), a data-dependent branch, sequencing, and a
user-code throw. -/
inductive GExpr where
  | lit (v : Val)
  | readF (f : Nat)
  | readC (w : Nat)
  | branchF (f : Nat) (a b : GExpr)
  | seq (a b : GExpr)
  | throwE
deriving DecidableEq, Repr

/-- The per-watcher state (observer/watcher.js:27-111).  `deps`/`newDeps`
hold dep ids (a Dep is identified with its id), `depIds`/`newDepIds` the
corresponding id sets. -/
structure WatcherS where
  deep : Bool
  user : Bool
  lazy : Bool
  sync : Bool
  active : Bool
  dirty : Bool
  value : Val
  deps : List Nat
  newDeps : List Nat
  depIds : List Nat
  newDepIds : List Nat
  getter : GExpr
deriving DecidableEq, Repr

/-- The reactive-graph state: reactive field values, per-dep subscriber
lists, the watchers (a watcher's id is its index), the active-observer
stack (`Dep.target` is its head), and instrumentation logs: getter
invocations (most recent first), `cb(newValue, oldValue)` invocations,
`handleError` reports, and the scheduler queue. -/
structure Sys where
  fields : List Val
  subs : List (List Nat)
  watchers : List WatcherS
  targetStack : List Nat
  evalLog : List Nat
  cbLog : List (Nat × Val × Val)
  errLog : List Nat
  queue : List Nat
deriving DecidableEq, Repr

def Sys.target (sys : Sys) : Option Nat :=
  sys.targetStack.head?

def Sys.watcherOf (sys : Sys) (w : Nat) : Option WatcherS :=
  sys.watchers[w]?

def Sys.setWatcher (sys : Sys) (w : Nat) (ws : WatcherS) : Sys :=
  { sys with watchers := sys.watchers.set w ws }

def Sys.subsOf (sys : Sys) (d : Nat) : List Nat :=
  (sys.subs[d]?).getD []

/-- `dep.addSub(watcher)`: append to the subscriber list. -/
def Sys.addSub (sys : Sys) (d t : Nat) : Sys :=
  { sys with subs := sys.subs.set d (sys.subsOf d ++ [t]) }

/-- `remove(arr, item)` (shared/util): splice out the first occurrence. -/
def removeFirst (l : List Nat) (x : Nat) : List Nat :=
  match l with
  | [] => []
  | y :: r => if y = x then r else y :: removeFirst r x

/-- `dep.removeSub(watcher)`. -/
def Sys.removeSub (sys : Sys) (d t : Nat) : Sys :=
  { sys with subs := sys.subs.set d (removeFirst (sys.subsOf d) t) }

/-- Modelled from the spec: `pushTarget` of the missing dep.js — activation
is a stack, `Dep.target` its top. -/
def pushTarget (sys : Sys) (w : Nat) : Sys :=
  { sys with targetStack := w :: sys.targetStack }

/-- Modelled from the spec: `popTarget` of the missing dep.js. -/
def popTarget (sys : Sys) : Sys :=
  { sys with targetStack := sys.targetStack.tail }

/-- `watcher.addDep(dep)` (observer/watcher.js:157-170). -/
def addDep (sys : Sys) (t d : Nat) : Sys :=
  match sys.watcherOf t with
  | none => sys
  | some w =>
    if w.newDepIds.contains d then sys
    else
      let sys' := sys.setWatcher t
        { w with newDepIds := w.newDepIds ++ [d], newDeps := w.newDeps ++ [d] }
      if w.depIds.contains d then sys'
      else sys'.addSub d t

/-- Modelled from the spec: `dep.depend()` of the missing dep.js — when an
observer is active, register this dep with it (`Dep.target.addDep(dep)`).
This is also the whole tracking work of the reactive getter installed by
the missing observer/index.js (`defineReactive`). -/
def depDepend (sys : Sys) (d : Nat) : Sys :=
  match sys.target with
  | some t => addDep sys t d
  | none => sys

/-- `watcher.cleanupDeps()` (observer/watcher.js:175-195): unsubscribe from
every dep of the previous generation absent from the new one, swap the
generations, clear the pending one. -/
def cleanupDeps (sys : Sys) (wid : Nat) : Sys :=
  match sys.watcherOf wid with
  | none => sys
  | some w =>
    let sys' := w.deps.foldl
      (fun s d => if w.newDepIds.contains d then s else s.removeSub d wid) sys
    sys'.setWatcher wid
      { w with deps := w.newDeps, newDeps := [],
               depIds := w.newDepIds, newDepIds := [] }

/-- `watcher.depend()` (observer/watcher.js:270-277): `deps[i].depend()`
for `i` from last to first. -/
def dependW (sys : Sys) (wid : Nat) : Sys :=
  match sys.watcherOf wid with
  | none => sys
  | some w => w.deps.reverse.foldl (fun s d => depDepend s d) sys

/-- Modelled from the spec: `queueWatcher` of the missing scheduler.js —
enqueue with deduplication. -/
def queueWatcher (sys : Sys) (wid : Nat) : Sys :=
  if sys.queue.contains wid then sys
  else { sys with queue := sys.queue ++ [wid] }

mutual

/-- Evaluation of a watcher getter with dependency tracking.  A reactive
field read goes through the reactive getter (register with the active
observer, then produce the value); a computed read goes through the
generated computed getter.  `fuel` bounds the computed-inside-computed
depth and only decreases there. -/
def evalE : Nat → Sys → GExpr → Sys × Except Unit Val
  | _, sys, .lit v => (sys, .ok v)
  | _, sys, .readF f =>
    let sys := depDepend sys f
    (sys, .ok ((sys.fields[f]?).getD .undef))
  | fuel, sys, .readC w =>
    (match fuel with
     | 0 => (sys, .error ())
     | fuel' + 1 => computedGetter fuel' sys w)
  | fuel, sys, .branchF f a b =>
    let sys := depDepend sys f
    if truthy ((sys.fields[f]?).getD .undef) then evalE fuel sys a
    else evalE fuel sys b
  | fuel, sys, .seq a b =>
    (match evalE fuel sys a with
     | (sys', .ok _) => evalE fuel sys' b
     | (sys', .error e) => (sys', .error e))
  | _, sys, .throwE => (sys, .error ())
  termination_by fuel _ e => (fuel, 0, sizeOf e)

/-- `createComputedGetter(key)`'s returned `computedGetter`
(state.js:262-296): if the watcher is dirty, `watcher.evaluate()`; then, if
`Dep.target` is set, `watcher.depend()`; return `watcher.value`. -/
def computedGetter (fuel : Nat) (sys : Sys) (key : Nat) : Sys × Except Unit Val :=
  match sys.watcherOf key with
  | none => (sys, .ok .undef)
  | some w =>
    (match (if w.dirty then evaluateW fuel sys key else (sys, .ok .undef)) with
     | (sys', .ok _) =>
       let sys'' := if sys'.target.isSome then dependW sys' key else sys'
       (sys'', .ok (((sys''.watcherOf key).map (·.value)).getD .undef))
     | (sys', .error e) => (sys', .error e))
  termination_by (fuel, 3, 0)

/-- `watcher.evaluate()` (observer/watcher.js:259-264):
`this.value = this.get(); this.dirty = false` (neither happens when the
getter throws). -/
def evaluateW (fuel : Nat) (sys : Sys) (wid : Nat) : Sys × Except Unit Val :=
  match watcherGet fuel sys wid with
  | (sys', .ok v) =>
    (match sys'.watcherOf wid with
     | some w => (sys'.setWatcher wid { w with value := v, dirty := false }, .ok v)
     | none => (sys', .ok v))
  | (sys', .error e) => (sys', .error e)
  termination_by (fuel, 2, 0)

/-- `watcher.get()` (observer/watcher.js:117-150): push self as the active
observer, run the getter (logged), route a thrown error to `handleError`
for a user watcher (returning the still-undefined `value`) or rethrow
otherwise, and on EVERY path pop the target stack and run `cleanupDeps`
(the source's `finally`).  `traverse(value)` for deep watchers only
re-reads the value graph; modelled values carry no nested reactive fields,
so it adds nothing. -/
def watcherGet (fuel : Nat) (sys : Sys) (wid : Nat) : Sys × Except Unit Val :=
  match sys.watcherOf wid with
  | none => (sys, .ok .undef)
  | some w =>
    let sys0 := pushTarget sys wid
    let sys1 := { sys0 with evalLog := wid :: sys0.evalLog }
    (match evalE fuel sys1 w.getter with
     | (sys2, .ok v) => (cleanupDeps (popTarget sys2) wid, .ok v)
     | (sys2, .error e) =>
       if w.user then
         let sys3 := { sys2 with errLog := sys2.errLog ++ [wid] }
         (cleanupDeps (popTarget sys3) wid, .ok .undef)
       else
         (cleanupDeps (popTarget sys2) wid, .error e))
  termination_by (fuel, 1, 0)

end

/-- The state seen by a watcher's getter inside `watcher.get()`: self pushed
as the active observer (`pushTarget`), invocation logged (instrumentation). -/
def pushAndLog (sys : Sys) (wid : Nat) : Sys :=
  { pushTarget sys wid with evalLog := wid :: (pushTarget sys wid).evalLog }

/-- `watcher.run()` (observer/watcher.js:221-252): when active, re-evaluate;
when the new value differs by strict inequality, is an object, or the
watcher is deep, store it and invoke `cb(newValue, oldValue)` (recorded in
`cbLog`; the modelled callback does not itself throw, so the user-watcher
`try`/`catch` around `cb` is silent). -/
def runW (fuel : Nat) (sys : Sys) (wid : Nat) : Sys × Except Unit Unit :=
  match sys.watcherOf wid with
  | none => (sys, .ok ())
  | some w0 =>
    if w0.active then
      match watcherGet fuel sys wid with
      | (sys1, .error e) => (sys1, .error e)
      | (sys1, .ok value) =>
        match sys1.watcherOf wid with
        | none => (sys1, .ok ())
        | some w =>
          if value != w.value || isObjectV value || w.deep then
            let oldValue := w.value
            let sys2 := sys1.setWatcher wid { w with value := value }
            ({ sys2 with cbLog := sys2.cbLog ++ [(wid, value, oldValue)] }, .ok ())
          else (sys1, .ok ())
    else (sys, .ok ())

/-- `watcher.update()` (observer/watcher.js:202-214): lazy → flip `dirty`;
sync → `run()`; otherwise enqueue into the scheduler. -/
def updateW (fuel : Nat) (sys : Sys) (wid : Nat) : Sys :=
  match sys.watcherOf wid with
  | none => sys
  | some w =>
    if w.lazy then sys.setWatcher wid { w with dirty := true }
    else if w.sync then (runW fuel sys wid).1
    else queueWatcher sys wid

end Vue

/-! ## Theorems

Helper lemmas shared between claims, followed by one theorem per claim
(with its counterexample and witness where applicable). -/

namespace Vue

theorem checkDup_mem_of_seen (k : String) :
    ∀ (l : List VNode) (seen : List String), k ∈ seen →
      (∃ v ∈ l, v.key = some k) → k ∈ checkDup seen l := by
  intro l
  induction l with
  | nil =>
    rintro seen _ ⟨v, hv, _⟩
    exact absurd hv (List.not_mem_nil v)
  | cons w ws ih =>
    rintro seen hk ⟨v, hv, hkey⟩
    rcases List.mem_cons.mp hv with rfl | hv'
    · simp only [checkDup, hkey]
      rw [if_pos (by simpa using hk)]
      exact List.mem_cons_self _ _
    · cases hw : w.key with
      | none =>
        simp only [checkDup, hw]
        exact ih seen hk ⟨v, hv', hkey⟩
      | some k' =>
        simp only [checkDup, hw]
        by_cases hc : k' ∈ seen
        · rw [if_pos (by simpa using hc)]
          exact List.mem_cons_of_mem _ (ih seen hk ⟨v, hv', hkey⟩)
        · rw [if_neg (by simpa using hc)]
          exact ih (seen ++ [k']) (List.mem_append_left _ hk) ⟨v, hv', hkey⟩

theorem checkDup_dup_warn (k : String) (u v : VNode)
    (hu : u.key = some k) (hv : v.key = some k) :
    ∀ (xs : List VNode), ∀ (ys zs : List VNode) (seen : List String),
      k ∈ checkDup seen (xs ++ u :: ys ++ v :: zs) := by
  intro xs
  induction xs with
  | nil =>
    intro ys zs seen
    simp only [List.nil_append, checkDup, hu]
    by_cases hc : k ∈ seen
    · rw [if_pos (by simpa using hc)]
      exact List.mem_cons_self _ _
    · rw [if_neg (by simpa using hc)]
      exact checkDup_mem_of_seen k _ _
        (List.mem_append_right _ (List.mem_singleton.mpr rfl)) ⟨v, by simp, hv⟩
  | cons x xs ih =>
    intro ys zs seen
    cases hx : x.key with
    | none =>
      simp only [List.cons_append, checkDup, hx]
      exact ih ys zs seen
    | some k' =>
      simp only [List.cons_append, checkDup, hx]
      by_cases hc : k' ∈ seen
      · rw [if_pos (by simpa using hc)]
        exact List.mem_cons_of_mem _ (ih ys zs seen)
      · rw [if_neg (by simpa using hc)]
        exact ih ys zs (seen ++ [k'])

theorem mapLookup_mapInsert (m : List (String × Int)) (k k' : String) (i : Int) :
    mapLookup (mapInsert m k i) k' = if k = k' then some i else mapLookup m k' := by
  simp [mapInsert, mapLookup]

theorem ktoi_last (children : List (Option VNode)) (b : Int) (k : String) :
    ∀ (n : Nat) (j : Nat) (c : VNode), j < n →
      oldAt children (b + j) = some c → c.key = some k →
      (∀ (j' : Nat) (c' : VNode), j < j' → j' < n →
        oldAt children (b + j') = some c' → c'.key ≠ some k) →
      mapLookup (ktoiAux children b n) k = some (b + j) := by
  intro n
  induction n with
  | zero => intro j c h; omega
  | succ n ih =>
    intro j c hj hslot hkey hlater
    by_cases hje : j = n
    · subst hje
      simp [ktoiAux, hslot, hkey, mapLookup_mapInsert]
    · have hjn : j < n := by omega
      have step : ∀ m, mapLookup
          (match oldAt children (b + n) with
           | some c =>
             match c.key with
             | some k' => mapInsert m k' (b + n)
             | none => m
           | none => m) k = mapLookup m k := by
        intro m
        cases hsl : oldAt children (b + (n : Nat)) with
        | none => simp
        | some c' =>
          cases hk' : c'.key with
          | none => simp [hk']
          | some k'' =>
            have hne : k'' ≠ k := fun h => hlater n c' hjn (by omega) hsl (h ▸ hk')
            simp [hk', mapLookup_mapInsert, hne]
      simp only [ktoiAux]
      rw [step]
      exact ih j c hjn hslot hkey (fun j' c' h1 h2 => hlater j' c' h1 (by omega))

mutual

theorem invokeDestroyHook_only_destroys (cbs : Cbs) (v : VNode) :
    ∀ e ∈ invokeDestroyHook cbs v, isDestroyEvt e = true := by
  cases v with
  | mk t k c d ch tx el ap af cv =>
    intro e he
    rw [invokeDestroyHook.eq_def] at he
    rcases List.mem_append.mp he with h | h
    · cases d with
      | none => simp at h
      | some dd =>
        simp only at h
        rcases List.mem_append.mp h with h1 | h1
        · by_cases hd : dd.hookDestroy = true <;> simp [hd] at h1
          rw [h1]; rfl
        · rw [List.eq_of_mem_replicate h1]; rfl
    · exact destroyChildren_only_destroys cbs ch e h

theorem destroyChildren_only_destroys (cbs : Cbs) (l : List VNode) :
    ∀ e ∈ invokeDestroyHook.destroyChildren cbs l, isDestroyEvt e = true := by
  cases l with
  | nil =>
    intro e he
    rw [invokeDestroyHook.destroyChildren.eq_def] at he
    simp at he
  | cons v vs =>
    intro e he
    rw [invokeDestroyHook.destroyChildren.eq_def] at he
    rcases List.mem_append.mp he with h | h
    · exact invokeDestroyHook_only_destroys cbs v e h
    · exact destroyChildren_only_destroys cbs vs e h

end

theorem destroyChildren_flatMap (cbs : Cbs) :
    ∀ l : List VNode, invokeDestroyHook.destroyChildren cbs l =
      l.flatMap (fun c => invokeDestroyHook cbs c) := by
  intro l
  induction l with
  | nil => rw [invokeDestroyHook.destroyChildren.eq_def]; rfl
  | cons v vs ih =>
    rw [invokeDestroyHook.destroyChildren.eq_def]
    simp only [List.flatMap_cons]
    rw [ih]

theorem rmCb_elm (st : RmSt) : (rmCb st).1.elm = st.elm := by
  simp only [rmCb]
  split <;> rfl

theorem raiFinish_elm (cbs : Cbs) (el : Option Nat) (b : Bool) (rm2 : RmSt)
    (tr1 : List Evt) (r' : RmSt) (tr : List Evt)
    (h : raiFinish cbs el b rm2 tr1 = (some r', tr)) : r'.elm = rm2.elm := by
  simp only [raiFinish] at h
  split at h <;>
    · simp only [Prod.mk.injEq, Option.some.injEq] at h
      rw [← h.1]
      try rw [rmCb_elm]

theorem rai_elm (cbs : Cbs) (v : VNode) :
    ∀ (r r' : RmSt) (tr : List Evt),
      raiRemoveHook cbs v (some r) = (some r', tr) → r'.elm = r.elm := by
  cases v with
  | mk t k c d ch tx el ap af cv =>
    intro r r' tr h
    rw [raiRemoveHook.eq_def] at h
    simp only [Option.isSome_some, Bool.true_or, if_true] at h
    cases cv with
    | none =>
      exact (raiFinish_elm _ _ _ _ _ _ _ h).trans rfl
    | some innerV =>
      simp only at h
      by_cases hin : innerV.data.isSome = true
      · rw [if_pos hin] at h
        rcases hrec : raiRemoveHook cbs innerV
            (some { cnt := r.cnt + (cbs.nRemove + 1), elm := r.elm }) with ⟨orm, ttr⟩
        rw [hrec] at h
        cases orm with
        | some rr =>
          have hrr : rr.elm = r.elm :=
            rai_elm cbs innerV { cnt := r.cnt + (cbs.nRemove + 1), elm := r.elm } rr ttr hrec
          exact (raiFinish_elm _ _ _ _ _ _ _ h).trans hrr
        | none =>
          exact (raiFinish_elm _ _ _ _ _ _ _ h).trans rfl
      · rw [if_neg hin] at h
        exact (raiFinish_elm _ _ _ _ _ _ _ h).trans rfl

theorem fireN_detach : ∀ (k : Nat) (st : RmSt), 0 < st.cnt →
    (Evt.detach st.elm ∈ (fireN st k).2 ↔ st.cnt ≤ k) := by
  intro k
  induction k with
  | zero =>
    intro st h
    simp only [fireN, List.not_mem_nil, false_iff]
    omega
  | succ k ih =>
    intro st h
    simp only [fireN]
    by_cases h1 : st.cnt = 1
    · simp [rmCb, h1]
    · simp only [rmCb, if_neg h1, List.nil_append]
      have := ih { st with cnt := st.cnt - 1 } (by simp; omega)
      simp only at this
      rw [this]
      omega

/-- The state components every tracked evaluation preserves: the
active-observer stack is restored, the invocation log only grows, the
watcher table keeps its size, and no reactive field is written. -/
def Pres (s s' : Sys) : Prop :=
  s'.targetStack = s.targetStack ∧
  (∃ l, s'.evalLog = l ++ s.evalLog) ∧
  s'.watchers.length = s.watchers.length ∧
  s'.fields = s.fields

theorem pres_refl (s : Sys) : Pres s s := ⟨rfl, ⟨[], rfl⟩, rfl, rfl⟩

theorem pres_trans {a b c : Sys} (h1 : Pres a b) (h2 : Pres b c) : Pres a c := by
  obtain ⟨t1, ⟨l1, e1⟩, w1, f1⟩ := h1
  obtain ⟨t2, ⟨l2, e2⟩, w2, f2⟩ := h2
  exact ⟨t2.trans t1, ⟨l2 ++ l1, by rw [e2, e1, List.append_assoc]⟩,
    w2.trans w1, f2.trans f1⟩

theorem pres_setWatcher (s : Sys) (w : Nat) (ws : WatcherS) :
    Pres s (s.setWatcher w ws) :=
  ⟨rfl, ⟨[], rfl⟩, by simp [Sys.setWatcher], rfl⟩

theorem pres_addSub (s : Sys) (d t : Nat) : Pres s (s.addSub d t) :=
  ⟨rfl, ⟨[], rfl⟩, rfl, rfl⟩

theorem pres_removeSub (s : Sys) (d t : Nat) : Pres s (s.removeSub d t) :=
  ⟨rfl, ⟨[], rfl⟩, rfl, rfl⟩

theorem pres_addDep (s : Sys) (t d : Nat) : Pres s (addDep s t d) := by
  unfold addDep
  cases s.watcherOf t with
  | none => exact pres_refl s
  | some w =>
    simp only
    by_cases h1 : w.newDepIds.contains d = true
    · rw [if_pos h1]; exact pres_refl s
    · rw [if_neg h1]
      by_cases h2 : w.depIds.contains d = true
      · rw [if_pos h2]; exact pres_setWatcher s t _
      · rw [if_neg h2]
        exact pres_trans (pres_setWatcher s t _) (pres_addSub _ d t)

theorem pres_foldl {α : Type} (f : Sys → α → Sys) (hf : ∀ s x, Pres s (f s x)) :
    ∀ (l : List α) (s : Sys), Pres s (l.foldl f s) := by
  intro l
  induction l with
  | nil => intro s; exact pres_refl s
  | cons x xs ih => intro s; exact pres_trans (hf s x) (ih (f s x))

theorem pres_depDepend (s : Sys) (d : Nat) : Pres s (depDepend s d) := by
  unfold depDepend
  cases s.target with
  | none => exact pres_refl s
  | some t => exact pres_addDep s t d

theorem pres_dependW (s : Sys) (w : Nat) : Pres s (dependW s w) := by
  unfold dependW
  cases s.watcherOf w with
  | none => exact pres_refl s
  | some ws => exact pres_foldl _ (fun s d => pres_depDepend s d) _ s

theorem pres_cleanupDeps (s : Sys) (w : Nat) : Pres s (cleanupDeps s w) := by
  unfold cleanupDeps
  cases s.watcherOf w with
  | none => exact pres_refl s
  | some ws =>
    refine pres_trans (pres_foldl _ (fun s d => ?_) _ s) (pres_setWatcher _ _ _)
    by_cases h : ws.newDepIds.contains d = true
    · rw [if_pos h]; exact pres_refl s
    · rw [if_neg h]; exact pres_removeSub s d w

/-- Composing the `finally` tail of `watcher.get` with a preserved
evaluation result. -/
theorem pres_wrap (sys : Sys) (wid : Nat) (sysE sysF : Sys)
    (hp : Pres { pushTarget sys wid with
                 evalLog := wid :: (pushTarget sys wid).evalLog } sysE)
    (hTS : sysF.targetStack = sysE.targetStack)
    (hEL : sysF.evalLog = sysE.evalLog)
    (hWL : sysF.watchers.length = sysE.watchers.length)
    (hF : sysF.fields = sysE.fields) :
    Pres sys (cleanupDeps (popTarget sysF) wid) := by
  obtain ⟨t1, ⟨l1, e1⟩, w1, f1⟩ := hp
  obtain ⟨t2, ⟨l2, e2⟩, w2, f2⟩ := pres_cleanupDeps (popTarget sysF) wid
  refine ⟨?_, ⟨l2 ++ (l1 ++ [wid]), ?_⟩, ?_, ?_⟩
  · rw [t2]
    show sysF.targetStack.tail = sys.targetStack
    rw [hTS, t1]
    rfl
  · rw [e2]
    show _ = _
    have : (popTarget sysF).evalLog = sysF.evalLog := rfl
    rw [this, hEL, e1]
    simp [pushTarget, List.append_assoc]
  · rw [w2]
    show sysF.watchers.length = sys.watchers.length
    rw [hWL, w1]
    rfl
  · rw [f2]
    show sysF.fields = sys.fields
    rw [hF, f1]
    rfl

theorem evalE_pres : ∀ (fuel : Nat) (sys : Sys) (e : GExpr),
    Pres sys (evalE fuel sys e).1 := by
  refine evalE.induct
    (fun fuel sys e => Pres sys (evalE fuel sys e).1)
    (fun fuel sys k => Pres sys (computedGetter fuel sys k).1)
    (fun fuel sys w => Pres sys (evaluateW fuel sys w).1)
    (fun fuel sys w => Pres sys (watcherGet fuel sys w).1)
    ?_ ?_ ?_ ?_ ?_ ?_ ?_ ?_ ?_ ?_ ?_ ?_ ?_ ?_ ?_ ?_ ?_ ?_ ?_
  · intro x sys v
    simp only [evalE]
    exact pres_refl sys
  · intro x sys f
    simp only [evalE]
    exact pres_depDepend sys f
  · intro sys w
    simp only [evalE]
    exact pres_refl sys
  · intro sys w n ih
    simp only [evalE]
    exact ih
  · intro fuel sys f a b s1 h ih
    simp only [evalE]
    split
    · exact pres_trans (pres_depDepend sys f) ih
    · exact absurd h (by assumption)
  · intro fuel sys f a b s1 h ih
    simp only [evalE]
    split
    · exact absurd (by assumption) h
    · exact pres_trans (pres_depDepend sys f) ih
  · intro fuel sys a b sys' v heq ih1 ih2
    simp only [evalE, heq]
    rw [heq] at ih1
    exact pres_trans ih1 ih2
  · intro fuel sys a b sys' e heq ih1
    simp only [evalE, heq]
    rw [heq] at ih1
    exact ih1
  · intro x sys
    simp only [evalE]
    exact pres_refl sys
  · intro fuel sys key hw
    rw [computedGetter.eq_def, hw]
    exact pres_refl sys
  · intro fuel sys key w hw sys' v heq ih3
    rw [computedGetter.eq_def, hw]
    simp only
    by_cases hd : w.dirty = true
    · rw [dif_pos hd] at heq
      rw [if_pos hd, heq]
      rw [heq] at ih3
      simp only
      split
      · exact pres_trans ih3 (pres_dependW sys' key)
      · exact ih3
    · rw [dif_neg hd] at heq
      injection heq with h1 h2
      subst h1
      rw [if_neg hd]
      simp only
      split
      · exact pres_dependW sys key
      · exact pres_refl sys
  · intro fuel sys key w hw sys' e heq ih3
    rw [computedGetter.eq_def, hw]
    simp only
    by_cases hd : w.dirty = true
    · rw [dif_pos hd] at heq
      rw [if_pos hd, heq]
      rw [heq] at ih3
      exact ih3
    · rw [dif_neg hd] at heq
      simp at heq
  · intro fuel sys wid sys' v heq w hw' ih4
    rw [evaluateW.eq_def, heq]
    dsimp only
    rw [hw']
    rw [heq] at ih4
    exact pres_trans ih4 (pres_setWatcher sys' wid _)
  · intro fuel sys wid sys' v heq hw' ih4
    rw [evaluateW.eq_def, heq]
    dsimp only
    rw [hw']
    rw [heq] at ih4
    exact ih4
  · intro fuel sys wid sys' e heq ih4
    rw [evaluateW.eq_def, heq]
    rw [heq] at ih4
    exact ih4
  · intro fuel sys wid hw
    rw [watcherGet.eq_def, hw]
    exact pres_refl sys
  · intro fuel sys wid w hw s0 s1 sys' v heq ih1
    rw [watcherGet.eq_def, hw]
    simp only
    have heq' : evalE fuel
        { pushTarget sys wid with evalLog := wid :: (pushTarget sys wid).evalLog }
        w.getter = (sys', Except.ok v) := heq
    rw [heq']
    have ih1' : Pres
        { pushTarget sys wid with evalLog := wid :: (pushTarget sys wid).evalLog }
        (evalE fuel
          { pushTarget sys wid with evalLog := wid :: (pushTarget sys wid).evalLog }
          w.getter).1 := ih1
    rw [heq'] at ih1'
    exact pres_wrap sys wid sys' sys' ih1' rfl rfl rfl rfl
  · intro fuel sys wid w hw s0 s1 sys' e heq hu ih1
    rw [watcherGet.eq_def, hw]
    simp only
    have heq' : evalE fuel
        { pushTarget sys wid with evalLog := wid :: (pushTarget sys wid).evalLog }
        w.getter = (sys', Except.error e) := heq
    rw [heq']
    have ih1' : Pres
        { pushTarget sys wid with evalLog := wid :: (pushTarget sys wid).evalLog }
        (evalE fuel
          { pushTarget sys wid with evalLog := wid :: (pushTarget sys wid).evalLog }
          w.getter).1 := ih1
    rw [heq'] at ih1'
    dsimp only
    rw [if_pos hu]
    exact pres_wrap sys wid sys'
      { sys' with errLog := sys'.errLog ++ [wid] } ih1' rfl rfl rfl rfl
  · intro fuel sys wid w hw s0 s1 sys' e heq hu ih1
    rw [watcherGet.eq_def, hw]
    simp only
    have heq' : evalE fuel
        { pushTarget sys wid with evalLog := wid :: (pushTarget sys wid).evalLog }
        w.getter = (sys', Except.error e) := heq
    rw [heq']
    have ih1' : Pres
        { pushTarget sys wid with evalLog := wid :: (pushTarget sys wid).evalLog }
        (evalE fuel
          { pushTarget sys wid with evalLog := wid :: (pushTarget sys wid).evalLog }
          w.getter).1 := ih1
    rw [heq'] at ih1'
    dsimp only
    rw [if_neg hu]
    exact pres_wrap sys wid sys' sys' ih1' rfl rfl rfl rfl

theorem cleanupDeps_fields (s : Sys) (wid : Nat) :
    (cleanupDeps s wid).evalLog = s.evalLog ∧
    (cleanupDeps s wid).errLog = s.errLog ∧
    (cleanupDeps s wid).cbLog = s.cbLog ∧
    (cleanupDeps s wid).targetStack = s.targetStack := by
  unfold cleanupDeps
  cases hw : s.watcherOf wid with
  | none => exact ⟨rfl, rfl, rfl, rfl⟩
  | some w =>
    dsimp only
    have hfold : ∀ (l : List Nat) (s0 : Sys),
        (l.foldl (fun s d => if w.newDepIds.contains d then s else s.removeSub d wid) s0).evalLog = s0.evalLog ∧
        (l.foldl (fun s d => if w.newDepIds.contains d then s else s.removeSub d wid) s0).errLog = s0.errLog ∧
        (l.foldl (fun s d => if w.newDepIds.contains d then s else s.removeSub d wid) s0).cbLog = s0.cbLog ∧
        (l.foldl (fun s d => if w.newDepIds.contains d then s else s.removeSub d wid) s0).targetStack = s0.targetStack := by
      intro l
      induction l with
      | nil => intro s0; exact ⟨rfl, rfl, rfl, rfl⟩
      | cons d ds ih =>
        intro s0
        simp only [List.foldl_cons]
        obtain ⟨h1, h2, h3, h4⟩ := ih (if w.newDepIds.contains d then s0 else s0.removeSub d wid)
        refine ⟨h1.trans ?_, h2.trans ?_, h3.trans ?_, h4.trans ?_⟩ <;> split <;> rfl
    obtain ⟨h1, h2, h3, h4⟩ := hfold w.deps s
    exact ⟨h1, h2, h3, h4⟩

theorem cleanupDeps_watchers (s : Sys) (wid : Nat) (w : WatcherS)
    (hw : s.watcherOf wid = some w) :
    (cleanupDeps s wid).watchers =
      s.watchers.set wid
        { w with deps := w.newDeps, newDeps := [],
                 depIds := w.newDepIds, newDepIds := [] } := by
  unfold cleanupDeps
  rw [hw]
  dsimp only [Sys.setWatcher]
  have hfold : ∀ (l : List Nat) (s0 : Sys),
      (l.foldl (fun s d => if w.newDepIds.contains d then s else s.removeSub d wid) s0).watchers = s0.watchers := by
    intro l
    induction l with
    | nil => intro s0; rfl
    | cons d ds ih =>
      intro s0
      simp only [List.foldl_cons]
      rw [ih]
      split <;> rfl
  rw [hfold]

theorem watcherOf_length (s : Sys) (wid : Nat) (w : WatcherS)
    (hw : s.watcherOf wid = some w) : wid < s.watchers.length := by
  simp only [Sys.watcherOf] at hw
  exact List.getElem?_eq_some_iff.mp hw |>.1

theorem watcherOf_set_self (s : Sys) (wid : Nat) (ws : WatcherS)
    (h : wid < s.watchers.length) :
    (s.setWatcher wid ws).watcherOf wid = some ws := by
  simp [Sys.setWatcher, Sys.watcherOf, List.getElem?_set, h]

end Vue

namespace Vue

theorem watcherGet_spec (fuel : Nat) (sys : Sys) (wid : Nat) (w : WatcherS)
    (hw : sys.watcherOf wid = some w) :
    ∃ (sysE : Sys) (res : Except Unit Val),
      evalE fuel (pushAndLog sys wid) w.getter = (sysE, res) ∧
      (∃ wE, sysE.watcherOf wid = some wE ∧
        (watcherGet fuel sys wid).1.watcherOf wid =
          some { wE with deps := wE.newDeps, newDeps := [],
                         depIds := wE.newDepIds, newDepIds := [] }) ∧
      (watcherGet fuel sys wid).1.targetStack = sys.targetStack ∧
      (watcherGet fuel sys wid).1.evalLog = sysE.evalLog ∧
      (∃ l, sysE.evalLog = l ++ wid :: sys.evalLog) ∧
      (∀ v, res = .ok v → (watcherGet fuel sys wid).2 = .ok v ∧
        (watcherGet fuel sys wid).1.errLog = sysE.errLog ∧
        (watcherGet fuel sys wid).1 = cleanupDeps (popTarget sysE) wid) ∧
      (∀ e, res = .error e →
        (w.user = true → (watcherGet fuel sys wid).2 = .ok .undef ∧
          (watcherGet fuel sys wid).1.errLog = sysE.errLog ++ [wid]) ∧
        (w.user = false → (watcherGet fuel sys wid).2 = .error e ∧
          (watcherGet fuel sys wid).1.errLog = sysE.errLog)) := by
  rcases heq : evalE fuel (pushAndLog sys wid) w.getter with ⟨sysE, res⟩
  have hpres := evalE_pres fuel (pushAndLog sys wid) w.getter
  rw [heq] at hpres
  obtain ⟨hTS, ⟨l, hLog⟩, hWL, hF⟩ := hpres
  have hlen : wid < sysE.watchers.length := by
    rw [hWL]
    exact watcherOf_length sys wid w hw
  have hwE : ∃ wE, sysE.watcherOf wid = some wE := by
    simp only [Sys.watcherOf]
    exact ⟨sysE.watchers[wid], List.getElem?_eq_some_iff.mpr ⟨hlen, rfl⟩⟩
  obtain ⟨wE, hwE⟩ := hwE
  have hwG : watcherGet fuel sys wid =
      match evalE fuel (pushAndLog sys wid) w.getter with
      | (sys2, .ok v) => (cleanupDeps (popTarget sys2) wid, .ok v)
      | (sys2, .error e) =>
        if w.user = true then
          (cleanupDeps (popTarget { sys2 with errLog := sys2.errLog ++ [wid] }) wid, .ok .undef)
        else
          (cleanupDeps (popTarget sys2) wid, .error e) := by
    rw [watcherGet.eq_def, hw]
    rfl
  rw [heq] at hwG
  have hpopW : (popTarget sysE).watcherOf wid = some wE := hwE
  have hplen : wid < (popTarget sysE).watchers.length := hlen
  have hTS' : sysE.targetStack = wid :: sys.targetStack := by
    rw [hTS]; rfl
  have hLog' : sysE.evalLog = l ++ wid :: sys.evalLog := by
    rw [hLog]; rfl
  have hcw : ∀ s0 : Sys, s0.watcherOf wid = some wE → wid < s0.watchers.length →
      (cleanupDeps s0 wid).watcherOf wid =
        some { wE with deps := wE.newDeps, newDeps := [],
                       depIds := wE.newDepIds, newDepIds := [] } := by
    intro s0 h0 hl0
    have := cleanupDeps_watchers s0 wid wE h0
    simp only [Sys.watcherOf, this, List.getElem?_set, hl0]
    simp
  cases res with
  | ok v =>
    simp only at hwG
    refine ⟨sysE, Except.ok v, rfl, ⟨wE, hwE, ?_⟩, ?_, ?_, ⟨l, hLog'⟩, ?_, ?_⟩
    · rw [hwG]
      exact hcw (popTarget sysE) hpopW hplen
    · rw [hwG]
      have h4 := (cleanupDeps_fields (popTarget sysE) wid).2.2.2
      simp only [h4]
      show sysE.targetStack.tail = sys.targetStack
      rw [hTS']
      rfl
    · rw [hwG]
      exact (cleanupDeps_fields (popTarget sysE) wid).1
    · intro v' hv
      cases hv
      refine ⟨by rw [hwG], ?_, by rw [hwG]⟩
      rw [hwG]
      exact (cleanupDeps_fields (popTarget sysE) wid).2.1
    · intro e habs
      simp at habs
  | error e' =>
    simp only at hwG
    by_cases hu : w.user = true
    · rw [if_pos hu] at hwG
      have hpopW2 : (popTarget { sysE with errLog := sysE.errLog ++ [wid] }).watcherOf wid = some wE := hwE
      have hplen2 : wid < (popTarget { sysE with errLog := sysE.errLog ++ [wid] }).watchers.length := hlen
      refine ⟨sysE, Except.error e', rfl, ⟨wE, hwE, ?_⟩, ?_, ?_, ⟨l, hLog'⟩, ?_, ?_⟩
      · rw [hwG]
        exact hcw _ hpopW2 hplen2
      · rw [hwG]
        have h4 := (cleanupDeps_fields (popTarget { sysE with errLog := sysE.errLog ++ [wid] }) wid).2.2.2
        simp only [h4]
        show sysE.targetStack.tail = sys.targetStack
        rw [hTS']
        rfl
      · rw [hwG]
        exact (cleanupDeps_fields (popTarget { sysE with errLog := sysE.errLog ++ [wid] }) wid).1
      · intro v' habs
        simp at habs
      · intro e he
        refine ⟨fun _ => ⟨by rw [hwG], ?_⟩, fun hneg => by rw [hneg] at hu; simp at hu⟩
        rw [hwG]
        exact (cleanupDeps_fields (popTarget { sysE with errLog := sysE.errLog ++ [wid] }) wid).2.1
    · rw [if_neg hu] at hwG
      refine ⟨sysE, Except.error e', rfl, ⟨wE, hwE, ?_⟩, ?_, ?_, ⟨l, hLog'⟩, ?_, ?_⟩
      · rw [hwG]
        exact hcw (popTarget sysE) hpopW hplen
      · rw [hwG]
        have h4 := (cleanupDeps_fields (popTarget sysE) wid).2.2.2
        simp only [h4]
        show sysE.targetStack.tail = sys.targetStack
        rw [hTS']
        rfl
      · rw [hwG]
        exact (cleanupDeps_fields (popTarget sysE) wid).1
      · intro v' habs
        simp at habs
      · intro e he
        cases he
        refine ⟨fun hpos => absurd hpos hu, fun _ => ⟨by rw [hwG], ?_⟩⟩
        rw [hwG]
        exact (cleanupDeps_fields (popTarget sysE) wid).2.1

theorem evaluateW_ok (fuel : Nat) (sys : Sys) (key : Nat) (w : WatcherS)
    (sys1 : Sys) (v : Val)
    (hw : sys.watcherOf key = some w)
    (h : evaluateW fuel sys key = (sys1, .ok v)) :
    (∃ l, sys1.evalLog = l ++ key :: sys.evalLog) ∧
    (∃ w1, sys1.watcherOf key = some w1 ∧ w1.value = v ∧ w1.dirty = false) ∧
    sys1.targetStack = sys.targetStack := by
  obtain ⟨sysE, res, heq, ⟨wE, hwE, hww⟩, hts, hlog, ⟨l, hgrow⟩, hok, herr⟩ :=
    watcherGet_spec fuel sys key w hw
  rw [evaluateW.eq_def] at h
  rcases hG : watcherGet fuel sys key with ⟨sysG, resG⟩
  rw [hG] at h
  cases resG with
  | error e => simp at h
  | ok u =>
    have hWoF : sysG.watcherOf key =
        some { wE with deps := wE.newDeps, newDeps := [],
                       depIds := wE.newDepIds, newDepIds := [] } := by
      have : (watcherGet fuel sys key).1 = sysG := by rw [hG]
      rw [← this]
      exact hww
    simp only at h
    rw [hWoF] at h
    simp only [Prod.mk.injEq, Except.ok.injEq] at h
    obtain ⟨h1, h2⟩ := h
    subst h2
    have hlenG : key < sysG.watchers.length := watcherOf_length sysG key _ hWoF
    refine ⟨⟨l, ?_⟩, ?_, ?_⟩
    · rw [← h1]
      show sysG.evalLog = _
      have : (watcherGet fuel sys key).1.evalLog = sysG.evalLog := by rw [hG]
      rw [← this, hlog, hgrow]
    · rw [← h1]
      exact ⟨_, watcherOf_set_self sysG key _ hlenG, rfl, rfl⟩
    · rw [← h1]
      show sysG.targetStack = sys.targetStack
      have : (watcherGet fuel sys key).1.targetStack = sysG.targetStack := by rw [hG]
      rw [← this, hts]

theorem addDep_fields (s : Sys) (t d : Nat) :
    (∀ k, ((addDep s t d).watcherOf k).map (fun w => (w.value, w.dirty, w.deps)) =
      ((s.watcherOf k).map (fun w => (w.value, w.dirty, w.deps)))) ∧
    (addDep s t d).evalLog = s.evalLog ∧
    (addDep s t d).subs.length = s.subs.length ∧
    (addDep s t d).watchers.length = s.watchers.length ∧
    (addDep s t d).target = s.target := by
  unfold addDep
  cases hw : s.watcherOf t with
  | none => exact ⟨fun k => rfl, rfl, rfl, rfl, rfl⟩
  | some w =>
    dsimp only
    by_cases hc : w.newDepIds.contains d = true
    · rw [if_pos hc]
      exact ⟨fun k => rfl, rfl, rfl, rfl, rfl⟩
    · rw [if_neg hc]
      have hlen := watcherOf_length s t w hw
      have hset : ∀ k, ((s.setWatcher t
          { w with newDepIds := w.newDepIds ++ [d], newDeps := w.newDeps ++ [d] }).watcherOf k).map
            (fun w => (w.value, w.dirty, w.deps)) =
          ((s.watcherOf k).map (fun w => (w.value, w.dirty, w.deps))) := by
        intro k
        by_cases hk : t = k
        · subst hk
          rw [watcherOf_set_self s t _ hlen, hw]
          rfl
        · simp [Sys.setWatcher, Sys.watcherOf, List.getElem?_set, hk]
      by_cases hd : w.depIds.contains d = true
      · rw [if_pos hd]
        exact ⟨hset, rfl, by simp [Sys.setWatcher], by simp [Sys.setWatcher], rfl⟩
      · rw [if_neg hd]
        refine ⟨fun k => ?_, rfl, by simp [Sys.setWatcher, Sys.addSub], by simp [Sys.setWatcher, Sys.addSub], rfl⟩
        show ((Sys.addSub _ d t).watcherOf k).map _ = _
        have : ∀ (s2 : Sys), ((s2.addSub d t).watcherOf k) = s2.watcherOf k := by
          intro s2; rfl
        rw [this]
        exact hset k

theorem dependW_fields (s : Sys) (x : Nat) :
    (∀ k, ((dependW s x).watcherOf k).map (fun w => (w.value, w.dirty, w.deps)) =
      ((s.watcherOf k).map (fun w => (w.value, w.dirty, w.deps)))) ∧
    (dependW s x).evalLog = s.evalLog ∧
    (dependW s x).watchers.length = s.watchers.length := by
  unfold dependW
  cases hw : s.watcherOf x with
  | none => exact ⟨fun k => rfl, rfl, rfl⟩
  | some w =>
    dsimp only
    have : ∀ (l : List Nat) (s0 : Sys),
        (∀ k, ((l.foldl depDepend s0).watcherOf k).map (fun w => (w.value, w.dirty, w.deps)) =
          ((s0.watcherOf k).map (fun w => (w.value, w.dirty, w.deps)))) ∧
        (l.foldl depDepend s0).evalLog = s0.evalLog ∧
        (l.foldl depDepend s0).watchers.length = s0.watchers.length := by
      intro l
      induction l with
      | nil => intro s0; exact ⟨fun k => rfl, rfl, rfl⟩
      | cons a as ih =>
        intro s0
        simp only [List.foldl_cons]
        obtain ⟨ih1, ih2, ih3⟩ := ih (depDepend s0 a)
        have hstep : (∀ k, ((depDepend s0 a).watcherOf k).map (fun w => (w.value, w.dirty, w.deps)) =
            ((s0.watcherOf k).map (fun w => (w.value, w.dirty, w.deps)))) ∧
            (depDepend s0 a).evalLog = s0.evalLog ∧
            (depDepend s0 a).watchers.length = s0.watchers.length := by
          unfold depDepend
          cases s0.target with
          | none => exact ⟨fun k => rfl, rfl, rfl⟩
          | some t =>
            obtain ⟨f1, f2, _, f4, _⟩ := addDep_fields s0 t a
            exact ⟨f1, f2, f4⟩
        exact ⟨fun k => (ih1 k).trans (hstep.1 k), ih2.trans hstep.2.1, ih3.trans hstep.2.2⟩
    exact this w.deps.reverse s

theorem subsOf_addSub (s : Sys) (d t : Nat) (hd : d < s.subs.length) :
    ((s.addSub d t).subsOf d = s.subsOf d ++ [t]) ∧
    (∀ d', d' ≠ d → (s.addSub d t).subsOf d' = s.subsOf d') := by
  constructor
  · simp [Sys.addSub, Sys.subsOf, List.getElem?_set, hd]
  · intro d' hne
    have : d ≠ d' := fun h => hne h.symm
    simp [Sys.addSub, Sys.subsOf, List.getElem?_set, this]

theorem addDep_spec (s : Sys) (t d : Nat) (tw : WatcherS)
    (hw : s.watcherOf t = some tw)
    (hinv : ∀ d', (d' ∈ tw.newDepIds ∨ d' ∈ tw.depIds) → t ∈ s.subsOf d')
    (hd : d < s.subs.length) :
    ∃ tw', (addDep s t d).watcherOf t = some tw' ∧
      tw'.depIds = tw.depIds ∧
      (∀ x, x ∈ tw.newDepIds → x ∈ tw'.newDepIds) ∧
      d ∈ tw'.newDepIds ∧
      (∀ d', (d' ∈ tw'.newDepIds ∨ d' ∈ tw'.depIds) → t ∈ (addDep s t d).subsOf d') ∧
      (∀ d' x, x ∈ s.subsOf d' → x ∈ (addDep s t d).subsOf d') := by
  unfold addDep
  rw [hw]
  dsimp only
  have hlen := watcherOf_length s t tw hw
  by_cases hc : tw.newDepIds.contains d = true
  · rw [if_pos hc]
    exact ⟨tw, hw, rfl, fun x hx => hx, by simpa using hc, hinv, fun d' x hx => hx⟩
  · rw [if_neg hc]
    set wNew : WatcherS :=
      { tw with newDepIds := tw.newDepIds ++ [d], newDeps := tw.newDeps ++ [d] } with hwNew
    have hsetW : (s.setWatcher t wNew).watcherOf t = some wNew :=
      watcherOf_set_self s t wNew hlen
    by_cases hdc : tw.depIds.contains d = true
    · rw [if_pos hdc]
      refine ⟨wNew, hsetW, rfl, fun x hx => List.mem_append_left _ hx,
        List.mem_append_right _ (List.mem_singleton.mpr rfl), ?_, fun d' x hx => hx⟩
      intro d' hd'
      show t ∈ s.subsOf d'
      rcases hd' with hd' | hd'
      · rcases List.mem_append.mp hd' with h1 | h1
        · exact hinv d' (Or.inl h1)
        · rw [List.mem_singleton.mp h1]
          exact hinv d (Or.inr (by simpa using hdc))
      · exact hinv d' (Or.inr hd')
    · rw [if_neg hdc]
      have hsub := subsOf_addSub (s.setWatcher t wNew) d t (by simpa [Sys.setWatcher] using hd)
      have hsubsOf : ∀ d', (s.setWatcher t wNew).subsOf d' = s.subsOf d' := fun d' => rfl
      refine ⟨wNew, ?_, rfl, fun x hx => List.mem_append_left _ hx,
        List.mem_append_right _ (List.mem_singleton.mpr rfl), ?_, ?_⟩
      · show ((s.setWatcher t wNew).addSub d t).watcherOf t = some wNew
        exact hsetW
      · intro d' hd'
        by_cases hde : d' = d
        · subst hde
          rw [hsub.1, hsubsOf]
          exact List.mem_append_right _ (List.mem_singleton.mpr rfl)
        · rw [hsub.2 d' hde, hsubsOf]
          rcases hd' with h1 | h1
          · rcases List.mem_append.mp h1 with h2 | h2
            · exact hinv d' (Or.inl h2)
            · exact absurd (List.mem_singleton.mp h2) hde
          · exact hinv d' (Or.inr h1)
      · intro d' x hx
        by_cases hde : d' = d
        · subst hde
          rw [hsub.1, hsubsOf]
          exact List.mem_append_left _ hx
        · rw [hsub.2 d' hde, hsubsOf]
          exact hx

theorem addDep_misc (s : Sys) (t d : Nat) :
    (addDep s t d).target = s.target ∧ (addDep s t d).subs.length = s.subs.length := by
  obtain ⟨-, -, h3, -, h5⟩ := addDep_fields s t d
  exact ⟨h5, h3⟩

theorem foldDepend_spec (t : Nat) : ∀ (l : List Nat) (s : Sys) (tw : WatcherS),
    s.target = some t → s.watcherOf t = some tw →
    (∀ d', (d' ∈ tw.newDepIds ∨ d' ∈ tw.depIds) → t ∈ s.subsOf d') →
    (∀ d ∈ l, d < s.subs.length) →
    ∃ tw', (l.foldl depDepend s).watcherOf t = some tw' ∧
      (∀ x, x ∈ tw.newDepIds → x ∈ tw'.newDepIds) ∧
      (∀ d ∈ l, d ∈ tw'.newDepIds) ∧
      (∀ d', (d' ∈ tw'.newDepIds ∨ d' ∈ tw'.depIds) → t ∈ (l.foldl depDepend s).subsOf d') := by
  intro l
  induction l with
  | nil =>
    intro s tw htg hw hinv hr
    exact ⟨tw, hw, fun x hx => hx, by simp, hinv⟩
  | cons d ds ih =>
    intro s tw htg hw hinv hr
    simp only [List.foldl_cons]
    have hstep : depDepend s d = addDep s t d := by
      unfold depDepend
      rw [htg]
    obtain ⟨tw1, hw1, hdep1, hmono1, hmem1, hinv1, hgrow1⟩ :=
      addDep_spec s t d tw hw hinv (hr d (List.mem_cons_self d ds))
    rw [hstep]
    obtain ⟨hT, hL⟩ := addDep_misc s t d
    obtain ⟨tw', hw', hmono', hall, hinv'⟩ := ih (addDep s t d) tw1
      (by rw [hT, htg]) hw1 hinv1
      (fun d' hd' => by rw [hL]; exact hr d' (List.mem_cons_of_mem d hd'))
    refine ⟨tw', hw', fun x hx => hmono' x (hmono1 x hx), ?_, hinv'⟩
    intro d' hd'
    rcases List.mem_cons.mp hd' with rfl | hd'
    · exact hmono' d' hmem1
    · exact hall d' hd'

theorem removeFirst_count (x : Nat) : ∀ l : List Nat,
    (removeFirst l x).count x = l.count x - 1 := by
  intro l
  induction l with
  | nil => simp [removeFirst]
  | cons y r ih =>
    by_cases h : y = x
    · subst h
      simp [removeFirst, List.count_cons_self]
    · simp only [removeFirst, if_neg h]
      rw [List.count_cons_of_ne (fun hc => h hc.symm),
        List.count_cons_of_ne (fun hc => h hc.symm), ih]

theorem mem_removeFirst {y x : Nat} : ∀ {l : List Nat}, y ∈ removeFirst l x → y ∈ l := by
  intro l
  induction l with
  | nil => simp [removeFirst]
  | cons z r ih =>
    by_cases h : z = x
    · subst h
      simp only [removeFirst, if_pos rfl]
      exact fun hm => List.mem_cons_of_mem _ hm
    · simp only [removeFirst, if_neg h]
      intro hm
      rcases List.mem_cons.mp hm with rfl | hm
      · exact List.mem_cons_self _ _
      · exact List.mem_cons_of_mem _ (ih hm)

theorem subsOf_removeSub_self (s : Sys) (d t : Nat)
    (hc : (s.subsOf d).count t ≤ 1) : t ∉ (s.removeSub d t).subsOf d := by
  by_cases hd : d < s.subs.length
  · have : (s.removeSub d t).subsOf d = removeFirst (s.subsOf d) t := by
      simp [Sys.removeSub, Sys.subsOf, List.getElem?_set, hd]
    rw [this]
    have hcnt := removeFirst_count t (s.subsOf d)
    intro hm
    have := List.count_pos_iff.mpr hm
    omega
  · have : (s.removeSub d t).subsOf d = s.subsOf d := by
      simp only [Sys.removeSub, Sys.subsOf]
      rw [List.set_eq_of_length_le (by omega)]
    rw [this]
    have h0 : s.subsOf d = [] := by
      simp only [Sys.subsOf]
      rw [List.getElem?_eq_none (by omega)]
      rfl
    rw [h0]
    simp

theorem subsOf_removeSub_other (s : Sys) (d t d' : Nat) (hne : d' ≠ d) :
    (s.removeSub d t).subsOf d' = s.subsOf d' := by
  have : d ≠ d' := fun h => hne h.symm
  simp [Sys.removeSub, Sys.subsOf, List.getElem?_set, this]

theorem subsOf_removeSub_mono (s : Sys) (d t d' x : Nat) :
    x ∈ (s.removeSub d t).subsOf d' → x ∈ s.subsOf d' := by
  by_cases hne : d' = d
  · subst hne
    by_cases hd : d' < s.subs.length
    · have : (s.removeSub d' t).subsOf d' = removeFirst (s.subsOf d') t := by
        simp [Sys.removeSub, Sys.subsOf, List.getElem?_set, hd]
      rw [this]
      exact mem_removeFirst
    · have : (s.removeSub d' t).subsOf d' = s.subsOf d' := by
        simp only [Sys.removeSub, Sys.subsOf]
        rw [List.set_eq_of_length_le (by omega)]
      rw [this]
      exact id
  · rw [subsOf_removeSub_other s d t d' hne]
    exact id

theorem cleanupFold_preserve (wid : Nat) (P : Nat → Bool) :
    ∀ (l : List Nat) (s : Sys) (d : Nat), wid ∉ s.subsOf d →
      wid ∉ (l.foldl (fun s dd => if P dd then s else s.removeSub dd wid) s).subsOf d := by
  intro l
  induction l with
  | nil => intro s d h; exact h
  | cons dd ds ih =>
    intro s d h
    simp only [List.foldl_cons]
    apply ih
    by_cases hp : P dd = true
    · rw [if_pos hp]; exact h
    · rw [if_neg hp]
      intro hm
      exact h (subsOf_removeSub_mono s dd wid d wid hm)

theorem cleanupFold_count (wid : Nat) (P : Nat → Bool) :
    ∀ (l : List Nat) (s : Sys) (d : Nat),
      ((l.foldl (fun s dd => if P dd then s else s.removeSub dd wid) s).subsOf d).count wid ≤
        (s.subsOf d).count wid := by
  intro l
  induction l with
  | nil => intro s d; exact le_refl _
  | cons dd ds ih =>
    intro s d
    simp only [List.foldl_cons]
    refine le_trans (ih _ d) ?_
    by_cases hp : P dd = true
    · rw [if_pos hp]
    · rw [if_neg hp]
      by_cases hne : d = dd
      · subst hne
        by_cases hd : d < s.subs.length
        · have : (s.removeSub d wid).subsOf d = removeFirst (s.subsOf d) wid := by
            simp [Sys.removeSub, Sys.subsOf, List.getElem?_set, hd]
          rw [this, removeFirst_count]
          omega
        · have : (s.removeSub d wid).subsOf d = s.subsOf d := by
            simp only [Sys.removeSub, Sys.subsOf]
            rw [List.set_eq_of_length_le (by omega)]
          rw [this]
      · rw [subsOf_removeSub_other s dd wid d hne]

theorem cleanupFold_notMem (wid : Nat) (P : Nat → Bool) :
    ∀ (l : List Nat) (s : Sys) (d : Nat), d ∈ l → P d = false →
      (s.subsOf d).count wid ≤ 1 →
      wid ∉ (l.foldl (fun s dd => if P dd then s else s.removeSub dd wid) s).subsOf d := by
  intro l
  induction l with
  | nil => intro s d h; simp at h
  | cons dd ds ih =>
    intro s d hmem hP hcnt
    simp only [List.foldl_cons]
    by_cases hcase : dd = d
    · subst hcase
      rw [if_neg (by rw [hP]; simp)]
      exact cleanupFold_preserve wid P ds _ dd (subsOf_removeSub_self s dd wid hcnt)
    · have hds : d ∈ ds := by
        rcases List.mem_cons.mp hmem with rfl | h
        · exact absurd rfl hcase
        · exact h
      apply ih _ d hds hP
      by_cases hp : P dd = true
      · rw [if_pos hp]; exact hcnt
      · rw [if_neg hp]
        rw [subsOf_removeSub_other s dd wid d (fun h => hcase h.symm)]
        exact hcnt

/-- C3.  Reading a computed property through its generated getter re-runs
the underlying lazy watcher's getter iff `dirty` is true — after which
`dirty` is false and the result is cached in `watcher.value`; when `dirty`
is false the cached value is returned with no getter invocation (the
evaluation log is unchanged); a dependency notification (`update`) on a
lazy watcher only sets `dirty`; and after ensuring freshness, when an
outer observer is active, `watcher.depend()` subscribes that observer to
every dep the computed watcher tracks. -/
theorem C3_computed_read_path :
    (∀ (fuel : Nat) (sys : Sys) (key : Nat) (w : WatcherS) (sys1 : Sys) (v : Val),
      sys.watcherOf key = some w → w.dirty = true →
      evaluateW fuel sys key = (sys1, .ok v) →
      (computedGetter fuel sys key).2 = .ok v ∧
      (∃ l, (computedGetter fuel sys key).1.evalLog = l ++ key :: sys.evalLog) ∧
      (∃ w', (computedGetter fuel sys key).1.watcherOf key = some w' ∧
        w'.dirty = false ∧ w'.value = v) ∧
      (computedGetter fuel sys key).1 =
        (if sys1.target.isSome then dependW sys1 key else sys1)) ∧
    (∀ (fuel : Nat) (sys : Sys) (key : Nat) (w : WatcherS),
      sys.watcherOf key = some w → w.dirty = false →
      (computedGetter fuel sys key).2 = .ok w.value ∧
      (computedGetter fuel sys key).1.evalLog = sys.evalLog ∧
      (computedGetter fuel sys key).1 =
        (if sys.target.isSome then dependW sys key else sys)) ∧
    (∀ (fuel : Nat) (sys : Sys) (wid : Nat) (w : WatcherS),
      sys.watcherOf wid = some w → w.lazy = true →
      updateW fuel sys wid = sys.setWatcher wid { w with dirty := true }) ∧
    (∀ (sys : Sys) (wid : Nat) (w : WatcherS) (t : Nat) (tw : WatcherS),
      sys.watcherOf wid = some w → sys.target = some t →
      sys.watcherOf t = some tw →
      (∀ d', (d' ∈ tw.newDepIds ∨ d' ∈ tw.depIds) → t ∈ sys.subsOf d') →
      (∀ d ∈ w.deps, d < sys.subs.length) →
      ∀ d ∈ w.deps, t ∈ (dependW sys wid).subsOf d ∧
        ∃ tw', (dependW sys wid).watcherOf t = some tw' ∧ d ∈ tw'.newDepIds) := by
  refine ⟨?_, ?_, ?_, ?_⟩
  · intro fuel sys key w sys1 v hw hd hev
    obtain ⟨⟨l, hlog1⟩, ⟨w1, hw1, hval1, hdirty1⟩, hts1⟩ :=
      evaluateW_ok fuel sys key w sys1 v hw hev
    have hcg : computedGetter fuel sys key =
        (if sys1.target.isSome = true then dependW sys1 key else sys1,
          .ok ((((if sys1.target.isSome = true then dependW sys1 key
              else sys1).watcherOf key).map (fun w => w.value)).getD .undef)) := by
      rw [computedGetter.eq_def, hw]
      dsimp only
      rw [if_pos hd, hev]
    have hval : ((if sys1.target.isSome = true then dependW sys1 key
        else sys1).watcherOf key).map (fun w => w.value) = some v := by
      split
      · obtain ⟨dwf, -, -⟩ := dependW_fields sys1 key
        have h3 := dwf key
        rw [hw1] at h3
        obtain ⟨w', hw', htrip⟩ := Option.map_eq_some'.mp h3
        rw [hw']
        simp only [Option.map_some']
        simp only [Prod.mk.injEq] at htrip
        rw [htrip.1, hval1]
      · rw [hw1]
        simp [hval1]
    have hwod : ∃ w', (if sys1.target.isSome = true then dependW sys1 key
        else sys1).watcherOf key = some w' ∧ w'.dirty = false ∧ w'.value = v := by
      split
      · obtain ⟨dwf, -, -⟩ := dependW_fields sys1 key
        have h3 := dwf key
        rw [hw1] at h3
        obtain ⟨w', hw', htrip⟩ := Option.map_eq_some'.mp h3
        simp only [Prod.mk.injEq] at htrip
        exact ⟨w', hw', htrip.2.1.trans hdirty1, htrip.1.trans hval1⟩
      · exact ⟨w1, hw1, hdirty1, hval1⟩
    refine ⟨?_, ⟨l, ?_⟩, ?_, ?_⟩
    · rw [hcg, hval]
      rfl
    · rw [hcg]
      show (if sys1.target.isSome = true then dependW sys1 key else sys1).evalLog = _
      split
      · obtain ⟨-, dwlog, -⟩ := dependW_fields sys1 key
        rw [dwlog, hlog1]
      · rw [hlog1]
    · rw [hcg]
      exact hwod
    · rw [hcg]
  · intro fuel sys key w hw hd
    have hcg : computedGetter fuel sys key =
        (if sys.target.isSome = true then dependW sys key else sys,
          .ok ((((if sys.target.isSome = true then dependW sys key
              else sys).watcherOf key).map (fun w => w.value)).getD .undef)) := by
      rw [computedGetter.eq_def, hw]
      dsimp only
      rw [if_neg (by simp [hd])]
    have hval : ((if sys.target.isSome = true then dependW sys key
        else sys).watcherOf key).map (fun w => w.value) = some w.value := by
      split
      · obtain ⟨dwf, -, -⟩ := dependW_fields sys key
        have h3 := dwf key
        rw [hw] at h3
        obtain ⟨w', hw', htrip⟩ := Option.map_eq_some'.mp h3
        rw [hw']
        simp only [Option.map_some']
        simp only [Prod.mk.injEq] at htrip
        rw [htrip.1]
      · rw [hw]
        simp
    refine ⟨?_, ?_, ?_⟩
    · rw [hcg, hval]
      rfl
    · rw [hcg]
      show (if sys.target.isSome = true then dependW sys key else sys).evalLog = _
      split
      · exact (dependW_fields sys key).2.1
      · rfl
    · rw [hcg]
  · intro fuel sys wid w hw hl
    unfold updateW
    rw [hw]
    dsimp only
    rw [if_pos hl]
  · intro sys wid w t tw hww htg hwt hinv hrange d hd
    unfold dependW
    rw [hww]
    dsimp only
    obtain ⟨tw', hw', hmono, hall, hinv'⟩ :=
      foldDepend_spec t w.deps.reverse sys tw htg hwt hinv
        (fun d' hd' => hrange d' (List.mem_reverse.mp hd'))
    have hdr : d ∈ w.deps.reverse := List.mem_reverse.mpr hd
    exact ⟨hinv' d (Or.inl (hall d hdr)), ⟨tw', hw', hall d hdr⟩⟩

/-- C4.  `cleanupDeps` makes the current dep set exactly the set read
during the last evaluation: the watcher record swaps generations and
clears the pending one, and any dep of the previous generation absent from
the new one has the watcher removed from its subscriber list (under the
no-duplicate-subscription invariant the watcher is then absent from it);
and every `watcher.get()` — i.e. every evaluation — ends in this reconciled
shape, whatever the getter did. -/
theorem C4_dep_reconciliation :
    (∀ (sys : Sys) (wid : Nat) (w : WatcherS), sys.watcherOf wid = some w →
      ((cleanupDeps sys wid).watcherOf wid =
        some { w with deps := w.newDeps, newDeps := [],
                      depIds := w.newDepIds, newDepIds := [] } ∧
       ∀ d ∈ w.deps, w.newDepIds.contains d = false →
         (sys.subsOf d).count wid ≤ 1 →
         wid ∉ (cleanupDeps sys wid).subsOf d)) ∧
    (∀ (fuel : Nat) (sys : Sys) (wid : Nat) (w : WatcherS),
      sys.watcherOf wid = some w →
      ∃ wE : WatcherS, (watcherGet fuel sys wid).1.watcherOf wid =
        some { wE with deps := wE.newDeps, newDeps := [],
                       depIds := wE.newDepIds, newDepIds := [] }) := by
  constructor
  · intro sys wid w hw
    constructor
    · have hlen := watcherOf_length sys wid w hw
      have hW := cleanupDeps_watchers sys wid w hw
      simp only [Sys.watcherOf, hW, List.getElem?_set, hlen]
      simp
    · intro d hd hnd hcnt
      unfold cleanupDeps
      rw [hw]
      dsimp only
      show wid ∉ (Sys.setWatcher _ wid _).subsOf d
      have : ∀ (s2 : Sys) (ws : WatcherS), (s2.setWatcher wid ws).subsOf d = s2.subsOf d :=
        fun s2 ws => rfl
      rw [this]
      exact cleanupFold_notMem wid (fun dd => w.newDepIds.contains dd) w.deps sys d hd hnd hcnt
  · intro fuel sys wid w hw
    obtain ⟨sysE, res, heq, ⟨wE, hwE, hww⟩, -⟩ := watcherGet_spec fuel sys wid w hw
    exact ⟨wE, hww⟩

/-- C5.  `watcher.run()` on an active watcher: the callback is invoked
with `(newValue, oldValue)` and the stored value replaced iff the fresh
value differs by strict inequality, or is a non-primitive object (always
treated as changed), or the watcher is deep; otherwise the state is left
exactly as evaluation produced it and no callback is recorded. -/
theorem C5_run_callback_condition :
    ∀ (fuel : Nat) (sys : Sys) (wid : Nat) (w0 : WatcherS) (sys1 : Sys) (v : Val)
      (w1 : WatcherS),
      sys.watcherOf wid = some w0 → w0.active = true →
      watcherGet fuel sys wid = (sys1, .ok v) → sys1.watcherOf wid = some w1 →
      (((v != w1.value || isObjectV v || w1.deep) = true →
        runW fuel sys wid =
          ({ sys1.setWatcher wid { w1 with value := v } with
             cbLog := (sys1.setWatcher wid { w1 with value := v }).cbLog ++
               [(wid, v, w1.value)] }, .ok ())) ∧
       ((v != w1.value || isObjectV v || w1.deep) = false →
        runW fuel sys wid = (sys1, .ok ()))) := by
  intro fuel sys wid w0 sys1 v w1 hw hact hG hw1
  unfold runW
  rw [hw]
  dsimp only
  rw [if_pos hact, hG]
  dsimp only
  rw [hw1]
  dsimp only
  constructor
  · intro hcond
    rw [if_pos hcond]
  · intro hcond
    rw [if_neg (by rw [hcond]; simp)]

/-- C7.  A getter that throws inside `watcher.get()`: a user-flagged
watcher routes the error to `handleError` (logged) and does not rethrow —
the call returns the still-undefined value; a non-user watcher rethrows
and logs nothing; and on both paths the active-observer stack is restored
and `cleanupDeps` still runs (the watcher ends generation-swapped), because
`popTarget` and `cleanupDeps` sit on every exit path. -/
theorem C7_getter_throw_handling :
    ∀ (fuel : Nat) (sys : Sys) (wid : Nat) (w : WatcherS) (sysE : Sys),
      sys.watcherOf wid = some w →
      evalE fuel (pushAndLog sys wid) w.getter = (sysE, .error ()) →
      ((w.user = true → (watcherGet fuel sys wid).2 = .ok .undef ∧
          (watcherGet fuel sys wid).1.errLog = sysE.errLog ++ [wid]) ∧
       (w.user = false → (watcherGet fuel sys wid).2 = .error () ∧
          (watcherGet fuel sys wid).1.errLog = sysE.errLog) ∧
       (watcherGet fuel sys wid).1.targetStack = sys.targetStack ∧
       (∃ wE : WatcherS, sysE.watcherOf wid = some wE ∧
         (watcherGet fuel sys wid).1.watcherOf wid =
           some { wE with deps := wE.newDeps, newDeps := [],
                          depIds := wE.newDepIds, newDepIds := [] })) := by
  intro fuel sys wid w sysE hw heq
  obtain ⟨sysE', res', heq', ⟨wE, hwE, hww⟩, hts, hlog, hgrow, hok, herr⟩ :=
    watcherGet_spec fuel sys wid w hw
  have hpair : (sysE, (Except.error () : Except Unit Val)) = (sysE', res') := heq.symm.trans heq'
  injection hpair with h1 h2
  subst h1
  have herr' := herr () h2.symm
  exact ⟨fun hu => (herr'.1 hu), fun hu => herr'.2 hu, hts, ⟨wE, hwE, hww⟩⟩

theorem ensureKeyMap_fields (st : DiffState) :
    (ensureKeyMap st).oldCh = st.oldCh ∧ (ensureKeyMap st).newCh = st.newCh ∧
    (ensureKeyMap st).oldStartIdx = st.oldStartIdx ∧
    (ensureKeyMap st).oldEndIdx = st.oldEndIdx ∧
    (ensureKeyMap st).newStartIdx = st.newStartIdx ∧
    (ensureKeyMap st).newEndIdx = st.newEndIdx ∧
    (ensureKeyMap st).ops = st.ops ∧ (ensureKeyMap st).nextElm = st.nextElm := by
  unfold ensureKeyMap
  cases st.oldKeyToIdx <;>
    exact ⟨rfl, rfl, rfl, rfl, rfl, rfl, rfl, rfl⟩

/-- C2.  The claim sends every new-start node whose map lookup fails — "no
key, or key not found" — straight to a brand-new mount.  The source only
consults the key map for a KEYED new-start; a keyless new-start instead
runs `findIdxInOld`, a linear `sameVnode` scan over the remaining old
range, and can therefore be matched, patched in place and moved.  Below,
three keyless old children `[div, span, p]` diff against keyless
`[span, a, b]`: all four cursor comparisons fail, the new-start `span` has
no key, yet the step emits a patch of old index 1 plus a move — not the
create the claim predicts. -/
theorem C2_keyless_counterexample :
    (VNode.mk (some "span") none false none [] none none false none none).key = none ∧
    (diffStep true (initDiffState
        [VNode.mk (some "div") none false none [] none (some 0) false none none,
         VNode.mk (some "span") none false none [] none (some 1) false none none,
         VNode.mk (some "p") none false none [] none (some 2) false none none]
        [VNode.mk (some "span") none false none [] none none false none none,
         VNode.mk (some "a") none false none [] none none false none none,
         VNode.mk (some "b") none false none [] none none false none none]
        100)).ops =
      [DiffOp.patchOp (some 1) 0, DiffOp.moveBefore (some 1) (some 0)] := by
  decide

/-- C2 (amended).  When the four cursor comparisons all fail, the loop
takes the keyed step: the old index is the key-map lookup for a keyed
new-start but a `findIdxInOld` scan (over `[oldStartIdx, oldEndIdx]`) for
a keyless one; no index found mounts a brand-new node before old-start's
node; an index whose old node passes `sameVnode` is patched, its slot set
undefined, and its node moved before old-start's node only when moves are
allowed (`canMove`); an incompatible old node at the index means a fresh
mount; and the new-start cursor advances in every non-crashing case — the
one exception being the stale keyed hit on a consumed slot, where the
source throws before `++newStartIdx` (the C8 theorems cover that case). -/
theorem C2_unmatched_new_start (canMove : Bool) (st : DiffState) (osv oev nsv nev : VNode)
    (h1 : st.oldStartVnode = some osv) (h2 : st.oldEndVnode = some oev)
    (h3 : st.newStartVnode = some nsv) (h4 : st.newEndVnode = some nev)
    (h5 : newAt st.newCh st.newStartIdx = some nsv)
    (g1 : sameVnode osv nsv = false) (g2 : sameVnode oev nev = false)
    (g3 : sameVnode osv nev = false) (g4 : sameVnode oev nsv = false) :
    diffStep canMove st = diffKeyedStep canMove st osv nsv ∧
    idxInOldOf (ensureKeyMap st) nsv =
      (match nsv.key with
       | some k => mapLookup ((ensureKeyMap st).oldKeyToIdx.getD []) k
       | none => findIdxInOld nsv st.oldCh st.oldStartIdx st.oldEndIdx) ∧
    (idxInOldOf (ensureKeyMap st) nsv = none →
      (diffStep canMove st).ops =
        st.ops ++ [.createOp st.newStartIdx st.nextElm osv.elm] ∧
      (diffStep canMove st).oldCh = st.oldCh) ∧
    (∀ (i : Int) (vtm : VNode), idxInOldOf (ensureKeyMap st) nsv = some i →
      oldAt st.oldCh i = some vtm → sameVnode vtm nsv = true →
      (diffStep canMove st).ops =
        st.ops ++ [.patchOp vtm.elm st.newStartIdx] ++
          (if canMove then [.moveBefore vtm.elm osv.elm] else []) ∧
      (diffStep canMove st).oldCh = st.oldCh.set i.toNat none) ∧
    (∀ (i : Int) (vtm : VNode), idxInOldOf (ensureKeyMap st) nsv = some i →
      oldAt st.oldCh i = some vtm → sameVnode vtm nsv = false →
      (diffStep canMove st).ops =
        st.ops ++ [.createOp st.newStartIdx st.nextElm osv.elm]) ∧
    ((diffStep canMove st).crashed = false →
      (diffStep canMove st).newStartIdx = st.newStartIdx + 1) := by
  obtain ⟨e1, e2, e3, e4, e5, e6, e7, e8⟩ := ensureKeyMap_fields st
  have hstep : diffStep canMove st = diffKeyedStep canMove st osv nsv := by
    unfold diffStep
    rw [h1, h2, h3, h4]
    dsimp only
    rw [g1, g2, g3, g4]
    simp
  have hnewAt1 : newAt (ensureKeyMap st).newCh (ensureKeyMap st).newStartIdx = some nsv := by
    rw [e2, e5, h5]
  refine ⟨hstep, ?_, ?_, ?_, ?_, ?_⟩
  · unfold idxInOldOf
    cases nsv.key with
    | some k => rfl
    | none => rw [e1, e3, e4]
  · intro hnone
    rw [hstep]
    simp [diffKeyedStep, hnone, advNewStart, createInto, e1, e2, e5, e7, e8, h5]
  · intro i vtm hsome hold hsame
    rw [hstep]
    cases canMove <;>
      simp [diffKeyedStep, hsome, hold, hsame, advNewStart, patchInto,
        e1, e2, e5, e7, e8, h5]
  · intro i vtm hsome hold hdiff
    rw [hstep]
    simp [diffKeyedStep, hsome, hold, hdiff, advNewStart, createInto,
      e1, e2, e5, e7, e8, h5]
  · rw [hstep]
    intro hnc
    cases hidx : idxInOldOf (ensureKeyMap st) nsv with
    | none =>
      simp [diffKeyedStep, hidx, advNewStart, createInto, e2, e5, h5]
    | some i =>
      cases hold : oldAt (ensureKeyMap st).oldCh i with
      | none =>
        exfalso
        rw [show diffKeyedStep canMove st osv nsv =
            { ensureKeyMap st with crashed := true } from by
          simp [diffKeyedStep, hidx, hold]] at hnc
        exact Bool.true_eq_false.mp hnc
      | some vtm =>
        by_cases hs : sameVnode vtm nsv = true
        · cases canMove <;>
            simp [diffKeyedStep, hidx, hold, hs, advNewStart, patchInto, e2, e5, h5]
        · simp [diffKeyedStep, hidx, hold, hs, advNewStart, createInto, e2, e5, h5]


theorem removeVnodes_single (cbs : Cbs) (v : VNode) (ht : v.tag.isSome = true) :
    removeVnodes cbs [some v] 0 0 =
      (raiRemoveHook cbs v none).2 ++ invokeDestroyHook cbs v := by
  rw [removeVnodes]
  rw [show List.range (((0:Int) + 1 - 0).toNat) = [0] from rfl]
  simp [oldAt, ht]

/-- C1.  The claim's reading of the identity rule — `sameVnodeClaim`, with
"the data.attrs.type values are equal" read as equality of the optional
`type` attribute — disagrees with the source's `sameVnode` on two `input`
vnodes that both lack a `type`: the first has `data` but no `attrs` (the
guarded JS chain yields the boolean `false`), the second has `attrs` but no
`type` (the chain yields `undefined`), and `false === undefined` is false,
so `sameVnode` rejects the pair the claim accepts. -/
theorem C1_sameVnode_counterexample :
    sameVnode
        (VNode.mk (some "input") none false
          (some { attrs := none, slot := none, hookDestroy := false, hookRemove := false })
          [] none none false none none)
        (VNode.mk (some "input") none false
          (some { attrs := some { type := none }, slot := none,
                  hookDestroy := false, hookRemove := false })
          [] none none false none none) = false ∧
      sameVnodeClaim
        (VNode.mk (some "input") none false
          (some { attrs := none, slot := none, hookDestroy := false, hookRemove := false })
          [] none none false none none)
        (VNode.mk (some "input") none false
          (some { attrs := some { type := none }, slot := none,
                  hookDestroy := false, hookRemove := false })
          [] none none false none none) = true := by
  decide

/-- C1 (amended).  `sameVnode a b` holds iff the keys agree and either (a)
tags, comment flags and data-presence agree and, when the tag is `input`,
the guarded chains `isDef(data) && isDef(data.attrs) && data.attrs.type`
(which yield the boolean `false` at a broken link, distinct under `===`
from an undefined `type`) are strictly equal or both text-like; or (b)
`a.isAsyncPlaceholder` is true, the factories are identical and
`b.asyncFactory.error` is undefined. -/
theorem C1_sameVnode_identity (a b : VNode) :
    sameVnode a b = true ↔
      (a.key = b.key ∧
        ((a.tag = b.tag ∧ a.isComment = b.isComment ∧
          a.data.isSome = b.data.isSome ∧
          (a.tag = some "input" →
            typeChain a = typeChain b ∨
              (isTextInputType (typeChain a) = true ∧
               isTextInputType (typeChain b) = true))) ∨
         (a.isAsyncPlaceholder = true ∧ a.asyncFactory = b.asyncFactory ∧
          asyncErrorUndef b = true))) := by
  by_cases h : a.tag = some "input"
  · simp only [sameVnode, sameInputType, h, ne_eq, not_true_eq_false, if_false,
      Bool.and_eq_true, Bool.or_eq_true, beq_iff_eq]
    tauto
  · simp only [sameVnode, sameInputType, h, ne_eq, not_false_eq_true, if_true,
      Bool.and_eq_true, Bool.or_eq_true, beq_iff_eq]
    tauto

theorem C1_sameVnode_identity_witness :
    sameVnode
        (VNode.mk (some "div") (some "x") false none [] none none false none none)
        (VNode.mk (some "div") (some "x") false none [] none none false none none) = true := by
  exact (C1_sameVnode_identity
      (VNode.mk (some "div") (some "x") false none [] none none false none none)
      (VNode.mk (some "div") (some "x") false none [] none none false none none)).mpr
    ⟨rfl, Or.inl ⟨rfl, rfl, rfl, fun h => absurd h (by decide)⟩⟩

/-- C6.  The claim says removal "first recursively invokes the destroy
lifecycle hooks ... and then invokes the remove side-effect modules".  The
source does the opposite: `removeVnodes` (patch.js:417-421) calls
`removeAndInvokeRemoveHook(ch)` BEFORE `invokeDestroyHook(ch)`.  On a
single tagged vnode carrying a destroy hook, with one remove and one
destroy module, the emitted trace starts with the remove-module invocation
and the destroy events follow it. -/
theorem C6_removal_counterexample :
    removeVnodes { nRemove := 1, nDestroy := 1 }
        [some (VNode.mk (some "div") none false
          (some { attrs := none, slot := none, hookDestroy := true, hookRemove := false })
          [] none (some 5) false none none)] 0 0 =
      [Evt.removeModuleEvt (some 5), Evt.destroyHookEvt (some 5),
       Evt.destroyModuleEvt (some 5)] := by
  decide

/-- C6 (amended).  Removing a vnode subtree first invokes the remove
side-effect modules and remove hooks — over the node and its nested
component-root chain, all feeding one shared countdown — and only then
recursively invokes the destroy hooks top-down (each node's own destroy
events precede its children's); the physical detachment of the shared
render-target node fires exactly when the countdown of registered remove
listeners reaches zero, i.e. only after every listener has called back. -/
theorem C6_removal_order :
    (∀ (cbs : Cbs) (v : VNode), v.tag.isSome = true →
      removeVnodes cbs [some v] 0 0 =
        (raiRemoveHook cbs v none).2 ++ invokeDestroyHook cbs v) ∧
    (∀ (cbs : Cbs) (t k : Option String) (c : Bool) (d : Option VNodeData)
        (ch : List VNode) (tx : Option String) (el : Option Nat) (ap : Bool)
        (af : Option AsyncFactory) (cv : Option VNode),
      invokeDestroyHook cbs (.mk t k c d ch tx el ap af cv) =
        (match d with
         | some dd =>
           (if dd.hookDestroy then [Evt.destroyHookEvt el] else []) ++
             List.replicate cbs.nDestroy (Evt.destroyModuleEvt el)
         | none => []) ++
        ch.flatMap (fun child => invokeDestroyHook cbs child)) ∧
    (∀ (k : Nat) (st : RmSt), 0 < st.cnt →
      (Evt.detach st.elm ∈ (fireN st k).2 ↔ st.cnt ≤ k)) ∧
    (∀ (cbs : Cbs) (v : VNode) (r r' : RmSt) (tr : List Evt),
      raiRemoveHook cbs v (some r) = (some r', tr) → r'.elm = r.elm) := by
  refine ⟨removeVnodes_single, ?_, fireN_detach, fun cbs v => rai_elm cbs v⟩
  intro cbs t k c d ch tx el ap af cv
  rw [invokeDestroyHook.eq_def]
  dsimp only
  rw [destroyChildren_flatMap cbs ch]

theorem C6_removal_order_witness :
    ((VNode.mk (some "div") none false
        (some { attrs := none, slot := none, hookDestroy := true, hookRemove := false })
        [] none (some 5) false none none).tag.isSome = true ∧
      removeVnodes { nRemove := 1, nDestroy := 1 }
        [some (VNode.mk (some "div") none false
          (some { attrs := none, slot := none, hookDestroy := true, hookRemove := false })
          [] none (some 5) false none none)] 0 0 =
        (raiRemoveHook { nRemove := 1, nDestroy := 1 }
          (VNode.mk (some "div") none false
            (some { attrs := none, slot := none, hookDestroy := true, hookRemove := false })
            [] none (some 5) false none none) none).2 ++
          invokeDestroyHook { nRemove := 1, nDestroy := 1 }
            (VNode.mk (some "div") none false
              (some { attrs := none, slot := none, hookDestroy := true, hookRemove := false })
              [] none (some 5) false none none)) ∧
    (0 < (2 : Nat) ∧
      (Evt.detach (some 5) ∈ (fireN { cnt := 2, elm := some 5 } 2).2 ↔ (2 : Nat) ≤ 2)) ∧
    (raiRemoveHook { nRemove := 1, nDestroy := 1 }
        (VNode.mk (some "div") none false
          (some { attrs := none, slot := none, hookDestroy := false, hookRemove := true })
          [] none (some 7) false none none)
        (some { cnt := 3, elm := some 9 }) =
      (some { cnt := 5, elm := some 9 },
        [Evt.removeModuleEvt (some 7), Evt.removeHookEvt (some 7)]) ∧
      ({ cnt := 5, elm := some 9 } : RmSt).elm = ({ cnt := 3, elm := some 9 } : RmSt).elm) := by
  refine ⟨⟨by decide, C6_removal_order.1 _ _ (by decide)⟩,
    ⟨by decide, C6_removal_order.2.2.1 2 { cnt := 2, elm := some 5 } (by decide)⟩,
    ⟨by decide,
      C6_removal_order.2.2.2 { nRemove := 1, nDestroy := 1 }
        (VNode.mk (some "div") none false
          (some { attrs := none, slot := none, hookDestroy := false, hookRemove := true })
          [] none (some 7) false none none)
        { cnt := 3, elm := some 9 } { cnt := 5, elm := some 9 }
        [Evt.removeModuleEvt (some 7), Evt.removeHookEvt (some 7)] (by decide)⟩⟩

/-- C9.  The `isUndef(vnode)` arm of `patch`: a defined old vnode receives
the destroy hooks recursively over its subtree (and only destroy events —
no render-target node is created, moved or removed), and the call returns
`undefined` instead of a render-target node. -/
theorem C9_patch_undefined (cbs : Cbs) (o : Option VNode) :
    (patchWhenVnodeUndef cbs o).2 = none ∧
    (∀ v, o = some v → (patchWhenVnodeUndef cbs o).1 = invokeDestroyHook cbs v) ∧
    (o = none → (patchWhenVnodeUndef cbs o).1 = []) ∧
    (∀ e ∈ (patchWhenVnodeUndef cbs o).1, isDestroyEvt e = true) := by
  cases o with
  | none =>
    refine ⟨rfl, ?_, fun _ => rfl, ?_⟩
    · intro v h; cases h
    · intro e he; simp [patchWhenVnodeUndef] at he
  | some v =>
    refine ⟨rfl, ?_, ?_, ?_⟩
    · intro v' h
      cases h
      rfl
    · intro h; cases h
    · intro e he
      exact invokeDestroyHook_only_destroys cbs v e he

theorem C9_patch_undefined_witness :
    (patchWhenVnodeUndef { nRemove := 1, nDestroy := 1 }
        (some (VNode.mk (some "div") none false
          (some { attrs := none, slot := none, hookDestroy := true, hookRemove := false })
          [VNode.mk (some "span") none false
            (some { attrs := none, slot := none, hookDestroy := true, hookRemove := false })
            [] none (some 2) false none none]
          none (some 1) false none none))).2 = none ∧
    (patchWhenVnodeUndef { nRemove := 1, nDestroy := 1 }
        (some (VNode.mk (some "div") none false
          (some { attrs := none, slot := none, hookDestroy := true, hookRemove := false })
          [VNode.mk (some "span") none false
            (some { attrs := none, slot := none, hookDestroy := true, hookRemove := false })
            [] none (some 2) false none none]
          none (some 1) false none none))).1 =
      invokeDestroyHook { nRemove := 1, nDestroy := 1 }
        (VNode.mk (some "div") none false
          (some { attrs := none, slot := none, hookDestroy := true, hookRemove := false })
          [VNode.mk (some "span") none false
            (some { attrs := none, slot := none, hookDestroy := true, hookRemove := false })
            [] none (some 2) false none none]
          none (some 1) false none none) := by
  have h := C9_patch_undefined { nRemove := 1, nDestroy := 1 }
    (some (VNode.mk (some "div") none false
      (some { attrs := none, slot := none, hookDestroy := true, hookRemove := false })
      [VNode.mk (some "span") none false
        (some { attrs := none, slot := none, hookDestroy := true, hookRemove := false })
        [] none (some 2) false none none]
      none (some 1) false none none))
  exact ⟨h.1, h.2.1 _ rfl⟩
/-- C10.  `renderSlot` resolves content with fallback at two levels: a
scoped-slot function for `name`, when present, is called with the props
merged over `bindObject` via `extend(extend(\x7b\x7d, bindObject), props)` — so
an explicit prop overrides a `bindObject` entry — and a falsy result falls
back to `fallback`; otherwise `$slots[name]` is used, falling back to
`fallback` when absent.  Finally, a non-empty `slot` entry in the effective
props wraps the nodes in one `template` vnode carrying that target, and
otherwise the nodes are returned as-is. -/
theorem C10_renderSlot_resolution :
    (∀ (ctx : SlotCtx) (name : String) (fallback : Option (List VNode))
        (props bindObject : Option (List (String × String)))
        (fn : List (String × String) → Option (List VNode)),
      (ctx.scopedSlots.find? (fun q => q.1 = name)).map (fun q => q.2) = some fn →
      renderSlot ctx name fallback props bindObject =
        finishSlot
          (some (match bindObject with
                 | some b => extendObj (extendObj [] b) (props.getD [])
                 | none => props.getD []))
          (match fn (match bindObject with
                     | some b => extendObj (extendObj [] b) (props.getD [])
                     | none => props.getD []) with
           | some ns => some ns
           | none => fallback)) ∧
    (∀ (b p : List (String × String)) (k v : String),
      propsGet p k = some v → propsGet (extendObj (extendObj [] b) p) k = some v) ∧
    (∀ (ctx : SlotCtx) (name : String) (fallback : Option (List VNode))
        (props bindObject : Option (List (String × String))),
      (ctx.scopedSlots.find? (fun q => q.1 = name)).map (fun q => q.2) = none →
      renderSlot ctx name fallback props bindObject =
        finishSlot props
          (match (ctx.slots.find? (fun q => q.1 = name)).map (fun q => q.2) with
           | some ns => some ns
           | none => fallback)) ∧
    (∀ (nodes : Option (List VNode)),
      finishSlot none nodes = .nodes nodes) ∧
    (∀ (p : List (String × String)) (nodes : Option (List VNode)) (target : String),
      propsGet p "slot" = some target → target ≠ "" →
      finishSlot (some p) nodes = .wrapped (templateVNode target nodes)) ∧
    (∀ (p : List (String × String)) (nodes : Option (List VNode)),
      propsGet p "slot" = none → finishSlot (some p) nodes = .nodes nodes) := by
  refine ⟨?_, ?_, ?_, ?_, ?_, ?_⟩
  · intro ctx name fallback props bindObject fn h
    unfold renderSlot
    rw [h]
  · intro b p k v h
    simp only [propsGet, extendObj, List.nil_append, List.reverse_append] at h ⊢
    rw [List.find?_append]
    cases hf : p.reverse.find? (fun q => q.1 = k) with
    | none => rw [hf] at h; simp at h
    | some q =>
      rw [hf] at h
      simpa using h
  · intro ctx name fallback props bindObject h
    unfold renderSlot
    rw [h]
  · intro nodes
    rfl
  · intro p nodes target h ht
    unfold finishSlot
    dsimp only
    rw [h]
    dsimp only
    rw [if_pos ht]
  · intro p nodes h
    unfold finishSlot
    dsimp only
    rw [h]

theorem C10_renderSlot_resolution_witness :
    renderSlot
        { scopedSlots := [("hdr", fun _ps => some [])], slots := [] } "hdr"
        none (some [("slot", "s1")]) (some [("a", "1")]) =
      finishSlot
        (some (extendObj (extendObj [] [("a", "1")]) [("slot", "s1")]))
        (some []) ∧
    propsGet (extendObj (extendObj [] [("k", "b")]) [("k", "p")]) "k" = some "p" ∧
    finishSlot (some [("slot", "s1")]) (some ([] : List VNode)) =
      .wrapped (templateVNode "s1" (some [])) := by
  refine ⟨?_, ?_, ?_⟩
  · exact C10_renderSlot_resolution.1
      { scopedSlots := [("hdr", fun _ps => some [])], slots := [] } "hdr"
      none (some [("slot", "s1")]) (some [("a", "1")]) (fun _ps => some []) rfl
  · exact C10_renderSlot_resolution.2.1 [("k", "b")] [("k", "p")] "k" "p" (by decide)
  · exact C10_renderSlot_resolution.2.2.2.2.1 [("slot", "s1")] (some []) "s1"
      (by decide) (by decide)

/-- C8.  The claim's diagnostic conjuncts hold, but "nothing is thrown ...
reconciliation proceeds rather than crashing" is false of the source.  Old
children keyed `[x, a, y]` against new children keyed `[a, a, z]`: the
duplicate key `a` is warned; the first `a` is patched via the key map and
its old slot set `undefined` (patch.js:521); the second `a` then reads the
stale map entry, `vnodeToMove = oldCh[1]` is `undefined`, and
`sameVnode(undefined, newStartVnode)` at patch.js:519 reads `a.key` on
`undefined` and throws a TypeError — reconciliation stops with no further
operations and no post-loop fixup (the model's `crashed` flag). -/
theorem C8_no_crash_counterexample :
    (updateChildren { nRemove := 1, nDestroy := 1 }
        [VNode.mk (some "li") (some "x") false none [] none (some 0) false none none,
         VNode.mk (some "li") (some "a") false none [] none (some 1) false none none,
         VNode.mk (some "li") (some "y") false none [] none (some 2) false none none]
        [VNode.mk (some "li") (some "a") false none [] none none false none none,
         VNode.mk (some "li") (some "a") false none [] none none false none none,
         VNode.mk (some "li") (some "z") false none [] none none false none none]
        false 100).2 = ["a"] ∧
    (updateChildren { nRemove := 1, nDestroy := 1 }
        [VNode.mk (some "li") (some "x") false none [] none (some 0) false none none,
         VNode.mk (some "li") (some "a") false none [] none (some 1) false none none,
         VNode.mk (some "li") (some "y") false none [] none (some 2) false none none]
        [VNode.mk (some "li") (some "a") false none [] none none false none none,
         VNode.mk (some "li") (some "a") false none [] none none false none none,
         VNode.mk (some "li") (some "z") false none [] none none false none none]
        false 100).1.crashed = true ∧
    (updateChildren { nRemove := 1, nDestroy := 1 }
        [VNode.mk (some "li") (some "x") false none [] none (some 0) false none none,
         VNode.mk (some "li") (some "a") false none [] none (some 1) false none none,
         VNode.mk (some "li") (some "y") false none [] none (some 2) false none none]
        [VNode.mk (some "li") (some "a") false none [] none none false none none,
         VNode.mk (some "li") (some "a") false none [] none none false none none,
         VNode.mk (some "li") (some "z") false none [] none none false none none]
        false 100).1.ops =
      [DiffOp.patchOp (some 1) 0, DiffOp.moveBefore (some 1) (some 0)] := by
  exact ⟨by decide, by decide, by decide⟩

/-- C8 (amended).  Two children of one list sharing a defined key: the key
is warned by `checkDuplicateKeys` wherever the pair sits; the lazily built
key map retains the LAST-seen index (the later `map[key] = i` overwrites);
the warnings are emitted on entry, before the loop runs; but reconciliation
does NOT always proceed: when the keyed lookup returns an index whose old
slot has already been consumed — reachable exactly with a duplicated key in
the new list — the source throws a TypeError inside
`sameVnode(undefined, ...)` (patch.js:519), modelled by the step producing
the `crashed` state, after which the loop stops and the post-loop fixup is
skipped, as the propagating exception stops them in the source. -/
theorem C8_duplicate_key_crash :
    (∀ (k : String) (u v : VNode) (xs ys zs : List VNode),
      u.key = some k → v.key = some k →
      k ∈ checkDuplicateKeys (xs ++ u :: ys ++ v :: zs)) ∧
    (∀ (children : List (Option VNode)) (b e : Int) (j : Nat) (c : VNode) (k : String),
      (j : Int) < e + 1 - b →
      oldAt children (b + j) = some c → c.key = some k →
      (∀ (j' : Nat) (c' : VNode), j < j' → (j' : Int) < e + 1 - b →
        oldAt children (b + j') = some c' → c'.key ≠ some k) →
      mapLookup (createKeyToOldIdx children b e) k = some (b + j)) ∧
    (∀ (cbs : Cbs) (oldCh newCh : List VNode) (removeOnly : Bool) (freshElm : Nat),
      (updateChildren cbs oldCh newCh removeOnly freshElm).2 =
        checkDuplicateKeys newCh) ∧
    (∀ (canMove : Bool) (st : DiffState) (osv oev nsv nev : VNode) (i : Int),
      st.oldStartVnode = some osv → st.oldEndVnode = some oev →
      st.newStartVnode = some nsv → st.newEndVnode = some nev →
      sameVnode osv nsv = false → sameVnode oev nev = false →
      sameVnode osv nev = false → sameVnode oev nsv = false →
      idxInOldOf (ensureKeyMap st) nsv = some i →
      oldAt st.oldCh i = none →
      diffStep canMove st = { ensureKeyMap st with crashed := true }) ∧
    (∀ (canMove : Bool) (fuel : Nat) (st : DiffState), st.crashed = true →
      diffLoop canMove fuel st = st) ∧
    (∀ (cbs : Cbs) (st : DiffState), st.crashed = true →
      diffFinish cbs st = st) := by
  refine ⟨?_, ?_, ?_, ?_, ?_, ?_⟩
  · intro k u v xs ys zs hu hv
    exact checkDup_dup_warn k u v hu hv xs ys zs []
  · intro children b e j c k hj hc hk hlater
    refine ktoi_last children b k ((e + 1 - b).toNat) j c (by omega) hc hk ?_
    intro j' c' h1 h2 hc'
    exact hlater j' c' h1 (by omega) hc'
  · intro cbs oldCh newCh removeOnly freshElm
    rfl
  · intro canMove st osv oev nsv nev i h1 h2 h3 h4 g1 g2 g3 g4 hidx hold
    have hold' : oldAt (ensureKeyMap st).oldCh i = none := by
      rw [(ensureKeyMap_fields st).1]
      exact hold
    have hstep : diffStep canMove st = diffKeyedStep canMove st osv nsv := by
      unfold diffStep
      rw [h1, h2, h3, h4]
      dsimp only
      rw [g1, g2, g3, g4]
      simp
    rw [hstep]
    simp [diffKeyedStep, hidx, hold']
  · intro canMove fuel st hc
    cases fuel with
    | zero => rfl
    | succ f => simp [diffLoop, hc]
  · intro cbs st hc
    unfold diffFinish
    rw [if_pos hc]

theorem C8_duplicate_key_crash_witness :
    "a" ∈ checkDuplicateKeys
        [VNode.mk (some "li") (some "a") false none [] none none false none none,
         VNode.mk (some "li") (some "a") false none [] none none false none none] ∧
    mapLookup (createKeyToOldIdx
        [some (VNode.mk (some "li") (some "a") false none [] none (some 0) false none none),
         some (VNode.mk (some "li") (some "a") false none [] none (some 1) false none none)]
        0 1) "a" = some ((0 : Int) + 1) ∧
    (updateChildren { nRemove := 1, nDestroy := 1 } [] [] false 0).2 =
      checkDuplicateKeys [] ∧
    diffStep true
        (diffStep true (initDiffState
          [VNode.mk (some "li") (some "x") false none [] none (some 0) false none none,
           VNode.mk (some "li") (some "a") false none [] none (some 1) false none none,
           VNode.mk (some "li") (some "y") false none [] none (some 2) false none none]
          [VNode.mk (some "li") (some "a") false none [] none none false none none,
           VNode.mk (some "li") (some "a") false none [] none none false none none,
           VNode.mk (some "li") (some "z") false none [] none none false none none]
          100)) =
      { ensureKeyMap (diffStep true (initDiffState
          [VNode.mk (some "li") (some "x") false none [] none (some 0) false none none,
           VNode.mk (some "li") (some "a") false none [] none (some 1) false none none,
           VNode.mk (some "li") (some "y") false none [] none (some 2) false none none]
          [VNode.mk (some "li") (some "a") false none [] none none false none none,
           VNode.mk (some "li") (some "a") false none [] none none false none none,
           VNode.mk (some "li") (some "z") false none [] none none false none none]
          100)) with crashed := true } ∧
    diffLoop true 5 { initDiffState [] [] 0 with crashed := true } =
      { initDiffState [] [] 0 with crashed := true } ∧
    diffFinish { nRemove := 1, nDestroy := 1 }
        { initDiffState [] [] 0 with crashed := true } =
      { initDiffState [] [] 0 with crashed := true } := by
  refine ⟨C8_duplicate_key_crash.1 "a"
      (VNode.mk (some "li") (some "a") false none [] none none false none none)
      (VNode.mk (some "li") (some "a") false none [] none none false none none)
      [] [] [] rfl rfl,
    C8_duplicate_key_crash.2.1
      [some (VNode.mk (some "li") (some "a") false none [] none (some 0) false none none),
       some (VNode.mk (some "li") (some "a") false none [] none (some 1) false none none)]
      0 1 1
      (VNode.mk (some "li") (some "a") false none [] none (some 1) false none none)
      "a" (by decide) rfl rfl ?_,
    C8_duplicate_key_crash.2.2.1 { nRemove := 1, nDestroy := 1 } [] [] false 0,
    C8_duplicate_key_crash.2.2.2.1 true
      (diffStep true (initDiffState
        [VNode.mk (some "li") (some "x") false none [] none (some 0) false none none,
         VNode.mk (some "li") (some "a") false none [] none (some 1) false none none,
         VNode.mk (some "li") (some "y") false none [] none (some 2) false none none]
        [VNode.mk (some "li") (some "a") false none [] none none false none none,
         VNode.mk (some "li") (some "a") false none [] none none false none none,
         VNode.mk (some "li") (some "z") false none [] none none false none none]
        100))
      (VNode.mk (some "li") (some "x") false none [] none (some 0) false none none)
      (VNode.mk (some "li") (some "y") false none [] none (some 2) false none none)
      (VNode.mk (some "li") (some "a") false none [] none none false none none)
      (VNode.mk (some "li") (some "z") false none [] none none false none none)
      1 rfl rfl rfl rfl (by decide) (by decide) (by decide) (by decide)
      (by decide) rfl,
    C8_duplicate_key_crash.2.2.2.2.1 true 5
      { initDiffState [] [] 0 with crashed := true } rfl,
    C8_duplicate_key_crash.2.2.2.2.2 { nRemove := 1, nDestroy := 1 }
      { initDiffState [] [] 0 with crashed := true } rfl⟩
  intro j' c' h1 h2 hc'
  omega

theorem C2_unmatched_new_start_witness :
    diffStep true (initDiffState
        [VNode.mk (some "div") none false none [] none (some 0) false none none,
         VNode.mk (some "span") none false none [] none (some 1) false none none,
         VNode.mk (some "p") none false none [] none (some 2) false none none]
        [VNode.mk (some "span") none false none [] none none false none none,
         VNode.mk (some "a") none false none [] none none false none none,
         VNode.mk (some "b") none false none [] none none false none none]
        100) =
      diffKeyedStep true (initDiffState
        [VNode.mk (some "div") none false none [] none (some 0) false none none,
         VNode.mk (some "span") none false none [] none (some 1) false none none,
         VNode.mk (some "p") none false none [] none (some 2) false none none]
        [VNode.mk (some "span") none false none [] none none false none none,
         VNode.mk (some "a") none false none [] none none false none none,
         VNode.mk (some "b") none false none [] none none false none none]
        100)
        (VNode.mk (some "div") none false none [] none (some 0) false none none)
        (VNode.mk (some "span") none false none [] none none false none none) ∧
    (diffStep true (initDiffState
        [VNode.mk (some "div") none false none [] none (some 0) false none none,
         VNode.mk (some "span") none false none [] none (some 1) false none none,
         VNode.mk (some "p") none false none [] none (some 2) false none none]
        [VNode.mk (some "span") none false none [] none none false none none,
         VNode.mk (some "a") none false none [] none none false none none,
         VNode.mk (some "b") none false none [] none none false none none]
        100)).newStartIdx = (0 : Int) + 1 := by
  have h := C2_unmatched_new_start true
    (initDiffState
        [VNode.mk (some "div") none false none [] none (some 0) false none none,
         VNode.mk (some "span") none false none [] none (some 1) false none none,
         VNode.mk (some "p") none false none [] none (some 2) false none none]
        [VNode.mk (some "span") none false none [] none none false none none,
         VNode.mk (some "a") none false none [] none none false none none,
         VNode.mk (some "b") none false none [] none none false none none]
        100)
    (VNode.mk (some "div") none false none [] none (some 0) false none none)
    (VNode.mk (some "p") none false none [] none (some 2) false none none)
    (VNode.mk (some "span") none false none [] none none false none none)
    (VNode.mk (some "b") none false none [] none none false none none)
    rfl rfl rfl rfl rfl (by decide) (by decide) (by decide) (by decide)
  exact ⟨h.1, h.2.2.2.2.2 (by decide)⟩
theorem C3_computed_read_path_witness :
    (computedGetter 5
        { fields := [Val.prim 7], subs := [[]],
          watchers := [{ deep := false, user := false, lazy := true, sync := false,
                         active := true, dirty := true, value := .undef,
                         deps := [], newDeps := [], depIds := [], newDepIds := [],
                         getter := .readF 0 }],
          targetStack := [], evalLog := [], cbLog := [], errLog := [], queue := [] }
        0).2 = .ok (Val.prim 7) ∧
    (∃ w', (computedGetter 5
        { fields := [Val.prim 7], subs := [[]],
          watchers := [{ deep := false, user := false, lazy := true, sync := false,
                         active := true, dirty := true, value := .undef,
                         deps := [], newDeps := [], depIds := [], newDepIds := [],
                         getter := .readF 0 }],
          targetStack := [], evalLog := [], cbLog := [], errLog := [], queue := [] }
        0).1.watcherOf 0 = some w' ∧ w'.dirty = false ∧ w'.value = Val.prim 7) ∧
    (computedGetter 5
        { fields := [Val.prim 7], subs := [[]],
          watchers := [{ deep := false, user := false, lazy := true, sync := false,
                         active := true, dirty := false, value := .prim 9,
                         deps := [], newDeps := [], depIds := [], newDepIds := [],
                         getter := .readF 0 }],
          targetStack := [], evalLog := [], cbLog := [], errLog := [], queue := [] }
        0).2 = .ok (Val.prim 9) ∧
    (computedGetter 5
        { fields := [Val.prim 7], subs := [[]],
          watchers := [{ deep := false, user := false, lazy := true, sync := false,
                         active := true, dirty := false, value := .prim 9,
                         deps := [], newDeps := [], depIds := [], newDepIds := [],
                         getter := .readF 0 }],
          targetStack := [], evalLog := [], cbLog := [], errLog := [], queue := [] }
        0).1.evalLog = [] ∧
    updateW 1
        { fields := [Val.prim 7], subs := [[]],
          watchers := [{ deep := false, user := false, lazy := true, sync := false,
                         active := true, dirty := false, value := .prim 9,
                         deps := [], newDeps := [], depIds := [], newDepIds := [],
                         getter := .readF 0 }],
          targetStack := [], evalLog := [], cbLog := [], errLog := [], queue := [] }
        0 =
      Sys.setWatcher
        { fields := [Val.prim 7], subs := [[]],
          watchers := [{ deep := false, user := false, lazy := true, sync := false,
                         active := true, dirty := false, value := .prim 9,
                         deps := [], newDeps := [], depIds := [], newDepIds := [],
                         getter := .readF 0 }],
          targetStack := [], evalLog := [], cbLog := [], errLog := [], queue := [] }
        0
        { deep := false, user := false, lazy := true, sync := false,
          active := true, dirty := true, value := .prim 9,
          deps := [], newDeps := [], depIds := [], newDepIds := [],
          getter := .readF 0 } ∧
    1 ∈ (dependW
        { fields := [Val.prim 7], subs := [[0]],
          watchers := [{ deep := false, user := false, lazy := true, sync := false,
                         active := true, dirty := false, value := .prim 7,
                         deps := [0], newDeps := [], depIds := [0], newDepIds := [],
                         getter := .readF 0 },
                       { deep := false, user := false, lazy := false, sync := false,
                         active := true, dirty := false, value := .undef,
                         deps := [], newDeps := [], depIds := [], newDepIds := [],
                         getter := .readC 0 }],
          targetStack := [1], evalLog := [], cbLog := [], errLog := [], queue := [] }
        0).subsOf 0 := by
  have hwo : Sys.watcherOf
      { fields := [Val.prim 7], subs := [[]],
        watchers := [{ deep := false, user := false, lazy := true, sync := false,
                       active := true, dirty := true, value := .undef,
                       deps := [], newDeps := [], depIds := [], newDepIds := [],
                       getter := .readF 0 }],
        targetStack := [], evalLog := [], cbLog := [], errLog := [], queue := [] } 0 =
      some { deep := false, user := false, lazy := true, sync := false,
             active := true, dirty := true, value := .undef,
             deps := [], newDeps := [], depIds := [], newDepIds := [],
             getter := .readF 0 } := rfl
  have h1e : evalE 5
      { fields := [Val.prim 7], subs := [[]],
        watchers := [{ deep := false, user := false, lazy := true, sync := false,
                       active := true, dirty := true, value := .undef,
                       deps := [], newDeps := [], depIds := [], newDepIds := [],
                       getter := .readF 0 }],
        targetStack := [0], evalLog := [0], cbLog := [], errLog := [], queue := [] }
      (.readF 0) =
      ({ fields := [Val.prim 7], subs := [[0]],
         watchers := [{ deep := false, user := false, lazy := true, sync := false,
                        active := true, dirty := true, value := .undef,
                        deps := [], newDeps := [0], depIds := [], newDepIds := [0],
                        getter := .readF 0 }],
         targetStack := [0], evalLog := [0], cbLog := [], errLog := [], queue := [] },
       .ok (Val.prim 7)) := by
    rw [evalE.eq_def]
    rfl
  have hwg : watcherGet 5
      { fields := [Val.prim 7], subs := [[]],
        watchers := [{ deep := false, user := false, lazy := true, sync := false,
                       active := true, dirty := true, value := .undef,
                       deps := [], newDeps := [], depIds := [], newDepIds := [],
                       getter := .readF 0 }],
        targetStack := [], evalLog := [], cbLog := [], errLog := [], queue := [] } 0 =
      ({ fields := [Val.prim 7], subs := [[0]],
         watchers := [{ deep := false, user := false, lazy := true, sync := false,
                        active := true, dirty := true, value := .undef,
                        deps := [0], newDeps := [], depIds := [0], newDepIds := [],
                        getter := .readF 0 }],
         targetStack := [], evalLog := [0], cbLog := [], errLog := [], queue := [] },
       .ok (Val.prim 7)) := by
    rw [watcherGet.eq_def]
    dsimp only
    rw [hwo]
    dsimp only [pushTarget]
    rw [h1e]
    rfl
  have hev : evaluateW 5
      { fields := [Val.prim 7], subs := [[]],
        watchers := [{ deep := false, user := false, lazy := true, sync := false,
                       active := true, dirty := true, value := .undef,
                       deps := [], newDeps := [], depIds := [], newDepIds := [],
                       getter := .readF 0 }],
        targetStack := [], evalLog := [], cbLog := [], errLog := [], queue := [] } 0 =
      ({ fields := [Val.prim 7], subs := [[0]],
         watchers := [{ deep := false, user := false, lazy := true, sync := false,
                        active := true, dirty := false, value := .prim 7,
                        deps := [0], newDeps := [], depIds := [0], newDepIds := [],
                        getter := .readF 0 }],
         targetStack := [], evalLog := [0], cbLog := [], errLog := [], queue := [] },
       .ok (Val.prim 7)) := by
    rw [evaluateW.eq_def, hwg]
    rfl
  have h1 := C3_computed_read_path.1 5
    { fields := [Val.prim 7], subs := [[]],
      watchers := [{ deep := false, user := false, lazy := true, sync := false,
                     active := true, dirty := true, value := .undef,
                     deps := [], newDeps := [], depIds := [], newDepIds := [],
                     getter := .readF 0 }],
      targetStack := [], evalLog := [], cbLog := [], errLog := [], queue := [] }
    0
    { deep := false, user := false, lazy := true, sync := false,
      active := true, dirty := true, value := .undef,
      deps := [], newDeps := [], depIds := [], newDepIds := [],
      getter := .readF 0 }
    { fields := [Val.prim 7], subs := [[0]],
      watchers := [{ deep := false, user := false, lazy := true, sync := false,
                     active := true, dirty := false, value := .prim 7,
                     deps := [0], newDeps := [], depIds := [0], newDepIds := [],
                     getter := .readF 0 }],
      targetStack := [], evalLog := [0], cbLog := [], errLog := [], queue := [] }
    (Val.prim 7) rfl rfl hev
  have h2 := C3_computed_read_path.2.1 5
    { fields := [Val.prim 7], subs := [[]],
      watchers := [{ deep := false, user := false, lazy := true, sync := false,
                     active := true, dirty := false, value := .prim 9,
                     deps := [], newDeps := [], depIds := [], newDepIds := [],
                     getter := .readF 0 }],
      targetStack := [], evalLog := [], cbLog := [], errLog := [], queue := [] }
    0
    { deep := false, user := false, lazy := true, sync := false,
      active := true, dirty := false, value := .prim 9,
      deps := [], newDeps := [], depIds := [], newDepIds := [],
      getter := .readF 0 } rfl rfl
  have h3 := C3_computed_read_path.2.2.1 1
    { fields := [Val.prim 7], subs := [[]],
      watchers := [{ deep := false, user := false, lazy := true, sync := false,
                     active := true, dirty := false, value := .prim 9,
                     deps := [], newDeps := [], depIds := [], newDepIds := [],
                     getter := .readF 0 }],
      targetStack := [], evalLog := [], cbLog := [], errLog := [], queue := [] }
    0
    { deep := false, user := false, lazy := true, sync := false,
      active := true, dirty := false, value := .prim 9,
      deps := [], newDeps := [], depIds := [], newDepIds := [],
      getter := .readF 0 } rfl rfl
  have h4 := C3_computed_read_path.2.2.2
    { fields := [Val.prim 7], subs := [[0]],
      watchers := [{ deep := false, user := false, lazy := true, sync := false,
                     active := true, dirty := false, value := .prim 7,
                     deps := [0], newDeps := [], depIds := [0], newDepIds := [],
                     getter := .readF 0 },
                   { deep := false, user := false, lazy := false, sync := false,
                     active := true, dirty := false, value := .undef,
                     deps := [], newDeps := [], depIds := [], newDepIds := [],
                     getter := .readC 0 }],
      targetStack := [1], evalLog := [], cbLog := [], errLog := [], queue := [] }
    0
    { deep := false, user := false, lazy := true, sync := false,
      active := true, dirty := false, value := .prim 7,
      deps := [0], newDeps := [], depIds := [0], newDepIds := [],
      getter := .readF 0 }
    1
    { deep := false, user := false, lazy := false, sync := false,
      active := true, dirty := false, value := .undef,
      deps := [], newDeps := [], depIds := [], newDepIds := [],
      getter := .readC 0 }
    rfl rfl rfl (by intro d' hd'; simp at hd') (by decide) 0 (by decide)
  exact ⟨h1.1, h1.2.2.1, h2.1, h2.2.1, h3, h4.1⟩
theorem C4_dep_reconciliation_witness :
    (cleanupDeps
        { fields := [Val.prim 1, Val.prim 2], subs := [[0], [0]],
          watchers := [{ deep := false, user := false, lazy := false, sync := false,
                         active := true, dirty := false, value := Val.undef,
                         deps := [0, 1], newDeps := [0], depIds := [0, 1],
                         newDepIds := [0], getter := .readF 0 }],
          targetStack := [], evalLog := [], cbLog := [], errLog := [], queue := [] }
        0).watcherOf 0 =
      some { deep := false, user := false, lazy := false, sync := false,
             active := true, dirty := false, value := Val.undef,
             deps := [0], newDeps := [], depIds := [0], newDepIds := [],
             getter := .readF 0 } ∧
    0 ∉ (cleanupDeps
        { fields := [Val.prim 1, Val.prim 2], subs := [[0], [0]],
          watchers := [{ deep := false, user := false, lazy := false, sync := false,
                         active := true, dirty := false, value := Val.undef,
                         deps := [0, 1], newDeps := [0], depIds := [0, 1],
                         newDepIds := [0], getter := .readF 0 }],
          targetStack := [], evalLog := [], cbLog := [], errLog := [], queue := [] }
        0).subsOf 1 ∧
    (∃ wE : WatcherS, (watcherGet 5
        { fields := [Val.prim 1, Val.prim 2], subs := [[0], [0]],
          watchers := [{ deep := false, user := false, lazy := false, sync := false,
                         active := true, dirty := false, value := Val.undef,
                         deps := [0, 1], newDeps := [0], depIds := [0, 1],
                         newDepIds := [0], getter := .readF 0 }],
          targetStack := [], evalLog := [], cbLog := [], errLog := [], queue := [] }
        0).1.watcherOf 0 =
      some { wE with deps := wE.newDeps, newDeps := [],
                     depIds := wE.newDepIds, newDepIds := [] }) := by
  have h := C4_dep_reconciliation.1
    { fields := [Val.prim 1, Val.prim 2], subs := [[0], [0]],
      watchers := [{ deep := false, user := false, lazy := false, sync := false,
                     active := true, dirty := false, value := Val.undef,
                     deps := [0, 1], newDeps := [0], depIds := [0, 1],
                     newDepIds := [0], getter := .readF 0 }],
      targetStack := [], evalLog := [], cbLog := [], errLog := [], queue := [] }
    0
    { deep := false, user := false, lazy := false, sync := false,
      active := true, dirty := false, value := Val.undef,
      deps := [0, 1], newDeps := [0], depIds := [0, 1],
      newDepIds := [0], getter := .readF 0 } rfl
  refine ⟨h.1, h.2 1 (by decide) (by decide) (by decide), ?_⟩
  exact C4_dep_reconciliation.2 5
    { fields := [Val.prim 1, Val.prim 2], subs := [[0], [0]],
      watchers := [{ deep := false, user := false, lazy := false, sync := false,
                     active := true, dirty := false, value := Val.undef,
                     deps := [0, 1], newDeps := [0], depIds := [0, 1],
                     newDepIds := [0], getter := .readF 0 }],
      targetStack := [], evalLog := [], cbLog := [], errLog := [], queue := [] }
    0
    { deep := false, user := false, lazy := false, sync := false,
      active := true, dirty := false, value := Val.undef,
      deps := [0, 1], newDeps := [0], depIds := [0, 1],
      newDepIds := [0], getter := .readF 0 } rfl

theorem C5_run_callback_condition_witness :
    runW 5
        { fields := [Val.prim 3], subs := [[]],
          watchers := [{ deep := false, user := false, lazy := false, sync := false,
                         active := true, dirty := false, value := Val.prim 0,
                         deps := [], newDeps := [], depIds := [], newDepIds := [],
                         getter := .readF 0 }],
          targetStack := [], evalLog := [], cbLog := [], errLog := [], queue := [] }
        0 =
      ({ fields := [Val.prim 3], subs := [[0]],
         watchers := [{ deep := false, user := false, lazy := false, sync := false,
                        active := true, dirty := false, value := Val.prim 3,
                        deps := [0], newDeps := [], depIds := [0], newDepIds := [],
                        getter := .readF 0 }],
         targetStack := [], evalLog := [0], cbLog := [(0, Val.prim 3, Val.prim 0)],
         errLog := [], queue := [] }, .ok ()) := by
  have hwo : Sys.watcherOf
      { fields := [Val.prim 3], subs := [[]],
        watchers := [{ deep := false, user := false, lazy := false, sync := false,
                       active := true, dirty := false, value := Val.prim 0,
                       deps := [], newDeps := [], depIds := [], newDepIds := [],
                       getter := .readF 0 }],
        targetStack := [], evalLog := [], cbLog := [], errLog := [], queue := [] } 0 =
      some { deep := false, user := false, lazy := false, sync := false,
             active := true, dirty := false, value := Val.prim 0,
             deps := [], newDeps := [], depIds := [], newDepIds := [],
             getter := .readF 0 } := rfl
  have h1e : evalE 5
      { fields := [Val.prim 3], subs := [[]],
        watchers := [{ deep := false, user := false, lazy := false, sync := false,
                       active := true, dirty := false, value := Val.prim 0,
                       deps := [], newDeps := [], depIds := [], newDepIds := [],
                       getter := .readF 0 }],
        targetStack := [0], evalLog := [0], cbLog := [], errLog := [], queue := [] }
      (.readF 0) =
      ({ fields := [Val.prim 3], subs := [[0]],
         watchers := [{ deep := false, user := false, lazy := false, sync := false,
                        active := true, dirty := false, value := Val.prim 0,
                        deps := [], newDeps := [0], depIds := [], newDepIds := [0],
                        getter := .readF 0 }],
         targetStack := [0], evalLog := [0], cbLog := [], errLog := [], queue := [] },
       .ok (Val.prim 3)) := by
    rw [evalE.eq_def]
    rfl
  have hG : watcherGet 5
      { fields := [Val.prim 3], subs := [[]],
        watchers := [{ deep := false, user := false, lazy := false, sync := false,
                       active := true, dirty := false, value := Val.prim 0,
                       deps := [], newDeps := [], depIds := [], newDepIds := [],
                       getter := .readF 0 }],
        targetStack := [], evalLog := [], cbLog := [], errLog := [], queue := [] } 0 =
      ({ fields := [Val.prim 3], subs := [[0]],
         watchers := [{ deep := false, user := false, lazy := false, sync := false,
                        active := true, dirty := false, value := Val.prim 0,
                        deps := [0], newDeps := [], depIds := [0], newDepIds := [],
                        getter := .readF 0 }],
         targetStack := [], evalLog := [0], cbLog := [], errLog := [], queue := [] },
       .ok (Val.prim 3)) := by
    rw [watcherGet.eq_def]
    dsimp only
    rw [hwo]
    dsimp only [pushTarget]
    rw [h1e]
    rfl
  have h := C5_run_callback_condition 5
    { fields := [Val.prim 3], subs := [[]],
      watchers := [{ deep := false, user := false, lazy := false, sync := false,
                     active := true, dirty := false, value := Val.prim 0,
                     deps := [], newDeps := [], depIds := [], newDepIds := [],
                     getter := .readF 0 }],
      targetStack := [], evalLog := [], cbLog := [], errLog := [], queue := [] }
    0
    { deep := false, user := false, lazy := false, sync := false,
      active := true, dirty := false, value := Val.prim 0,
      deps := [], newDeps := [], depIds := [], newDepIds := [],
      getter := .readF 0 }
    { fields := [Val.prim 3], subs := [[0]],
      watchers := [{ deep := false, user := false, lazy := false, sync := false,
                     active := true, dirty := false, value := Val.prim 0,
                     deps := [0], newDeps := [], depIds := [0], newDepIds := [],
                     getter := .readF 0 }],
      targetStack := [], evalLog := [0], cbLog := [], errLog := [], queue := [] }
    (Val.prim 3)
    { deep := false, user := false, lazy := false, sync := false,
      active := true, dirty := false, value := Val.prim 0,
      deps := [0], newDeps := [], depIds := [0], newDepIds := [],
      getter := .readF 0 }
    rfl rfl hG rfl
  exact h.1 (by decide)

theorem C7_getter_throw_handling_witness :
    ((watcherGet 5
        { fields := [], subs := [],
          watchers := [{ deep := false, user := true, lazy := false, sync := false,
                         active := true, dirty := false, value := Val.undef,
                         deps := [], newDeps := [], depIds := [], newDepIds := [],
                         getter := .throwE },
                       { deep := false, user := false, lazy := false, sync := false,
                         active := true, dirty := false, value := Val.undef,
                         deps := [], newDeps := [], depIds := [], newDepIds := [],
                         getter := .throwE }],
          targetStack := [], evalLog := [], cbLog := [], errLog := [], queue := [] }
        0).2 = .ok .undef ∧
      (watcherGet 5
        { fields := [], subs := [],
          watchers := [{ deep := false, user := true, lazy := false, sync := false,
                         active := true, dirty := false, value := Val.undef,
                         deps := [], newDeps := [], depIds := [], newDepIds := [],
                         getter := .throwE },
                       { deep := false, user := false, lazy := false, sync := false,
                         active := true, dirty := false, value := Val.undef,
                         deps := [], newDeps := [], depIds := [], newDepIds := [],
                         getter := .throwE }],
          targetStack := [], evalLog := [], cbLog := [], errLog := [], queue := [] }
        0).1.errLog = [0]) ∧
    (watcherGet 5
        { fields := [], subs := [],
          watchers := [{ deep := false, user := true, lazy := false, sync := false,
                         active := true, dirty := false, value := Val.undef,
                         deps := [], newDeps := [], depIds := [], newDepIds := [],
                         getter := .throwE },
                       { deep := false, user := false, lazy := false, sync := false,
                         active := true, dirty := false, value := Val.undef,
                         deps := [], newDeps := [], depIds := [], newDepIds := [],
                         getter := .throwE }],
          targetStack := [], evalLog := [], cbLog := [], errLog := [], queue := [] }
        1).2 = .error () ∧
    (watcherGet 5
        { fields := [], subs := [],
          watchers := [{ deep := false, user := true, lazy := false, sync := false,
                         active := true, dirty := false, value := Val.undef,
                         deps := [], newDeps := [], depIds := [], newDepIds := [],
                         getter := .throwE },
                       { deep := false, user := false, lazy := false, sync := false,
                         active := true, dirty := false, value := Val.undef,
                         deps := [], newDeps := [], depIds := [], newDepIds := [],
                         getter := .throwE }],
          targetStack := [], evalLog := [], cbLog := [], errLog := [], queue := [] }
        0).1.targetStack = [] := by
  have heq0 : evalE 5 (pushAndLog
      { fields := [], subs := [],
        watchers := [{ deep := false, user := true, lazy := false, sync := false,
                       active := true, dirty := false, value := Val.undef,
                       deps := [], newDeps := [], depIds := [], newDepIds := [],
                       getter := .throwE },
                     { deep := false, user := false, lazy := false, sync := false,
                       active := true, dirty := false, value := Val.undef,
                       deps := [], newDeps := [], depIds := [], newDepIds := [],
                       getter := .throwE }],
        targetStack := [], evalLog := [], cbLog := [], errLog := [], queue := [] } 0)
      .throwE =
      (pushAndLog
        { fields := [], subs := [],
          watchers := [{ deep := false, user := true, lazy := false, sync := false,
                         active := true, dirty := false, value := Val.undef,
                         deps := [], newDeps := [], depIds := [], newDepIds := [],
                         getter := .throwE },
                       { deep := false, user := false, lazy := false, sync := false,
                         active := true, dirty := false, value := Val.undef,
                         deps := [], newDeps := [], depIds := [], newDepIds := [],
                         getter := .throwE }],
          targetStack := [], evalLog := [], cbLog := [], errLog := [], queue := [] } 0,
       .error ()) := by
    rw [evalE.eq_def]
  have heq1 : evalE 5 (pushAndLog
      { fields := [], subs := [],
        watchers := [{ deep := false, user := true, lazy := false, sync := false,
                       active := true, dirty := false, value := Val.undef,
                       deps := [], newDeps := [], depIds := [], newDepIds := [],
                       getter := .throwE },
                     { deep := false, user := false, lazy := false, sync := false,
                       active := true, dirty := false, value := Val.undef,
                       deps := [], newDeps := [], depIds := [], newDepIds := [],
                       getter := .throwE }],
        targetStack := [], evalLog := [], cbLog := [], errLog := [], queue := [] } 1)
      .throwE =
      (pushAndLog
        { fields := [], subs := [],
          watchers := [{ deep := false, user := true, lazy := false, sync := false,
                         active := true, dirty := false, value := Val.undef,
                         deps := [], newDeps := [], depIds := [], newDepIds := [],
                         getter := .throwE },
                       { deep := false, user := false, lazy := false, sync := false,
                         active := true, dirty := false, value := Val.undef,
                         deps := [], newDeps := [], depIds := [], newDepIds := [],
                         getter := .throwE }],
          targetStack := [], evalLog := [], cbLog := [], errLog := [], queue := [] } 1,
       .error ()) := by
    rw [evalE.eq_def]
  have h0 := C7_getter_throw_handling 5
    { fields := [], subs := [],
      watchers := [{ deep := false, user := true, lazy := false, sync := false,
                     active := true, dirty := false, value := Val.undef,
                     deps := [], newDeps := [], depIds := [], newDepIds := [],
                     getter := .throwE },
                   { deep := false, user := false, lazy := false, sync := false,
                     active := true, dirty := false, value := Val.undef,
                     deps := [], newDeps := [], depIds := [], newDepIds := [],
                     getter := .throwE }],
      targetStack := [], evalLog := [], cbLog := [], errLog := [], queue := [] }
    0
    { deep := false, user := true, lazy := false, sync := false,
      active := true, dirty := false, value := Val.undef,
      deps := [], newDeps := [], depIds := [], newDepIds := [],
      getter := .throwE }
    (pushAndLog
      { fields := [], subs := [],
        watchers := [{ deep := false, user := true, lazy := false, sync := false,
                       active := true, dirty := false, value := Val.undef,
                       deps := [], newDeps := [], depIds := [], newDepIds := [],
                       getter := .throwE },
                     { deep := false, user := false, lazy := false, sync := false,
                       active := true, dirty := false, value := Val.undef,
                       deps := [], newDeps := [], depIds := [], newDepIds := [],
                       getter := .throwE }],
        targetStack := [], evalLog := [], cbLog := [], errLog := [], queue := [] } 0)
    rfl heq0
  have h1 := C7_getter_throw_handling 5
    { fields := [], subs := [],
      watchers := [{ deep := false, user := true, lazy := false, sync := false,
                     active := true, dirty := false, value := Val.undef,
                     deps := [], newDeps := [], depIds := [], newDepIds := [],
                     getter := .throwE },
                   { deep := false, user := false, lazy := false, sync := false,
                     active := true, dirty := false, value := Val.undef,
                     deps := [], newDeps := [], depIds := [], newDepIds := [],
                     getter := .throwE }],
      targetStack := [], evalLog := [], cbLog := [], errLog := [], queue := [] }
    1
    { deep := false, user := false, lazy := false, sync := false,
      active := true, dirty := false, value := Val.undef,
      deps := [], newDeps := [], depIds := [], newDepIds := [],
      getter := .throwE }
    (pushAndLog
      { fields := [], subs := [],
        watchers := [{ deep := false, user := true, lazy := false, sync := false,
                       active := true, dirty := false, value := Val.undef,
                       deps := [], newDeps := [], depIds := [], newDepIds := [],
                       getter := .throwE },
                     { deep := false, user := false, lazy := false, sync := false,
                       active := true, dirty := false, value := Val.undef,
                       deps := [], newDeps := [], depIds := [], newDepIds := [],
                       getter := .throwE }],
        targetStack := [], evalLog := [], cbLog := [], errLog := [], queue := [] } 1)
    rfl heq1
  exact ⟨h0.1 rfl, (h1.2.1 rfl).1, h0.2.2.1⟩
end Vue
